import Mathlib

/-!
Verification of the streamlake incremental-merge compiler.

The development shallowly embeds the Python sources
`micro-batch/micro_batch_data.py`, `initial-loader-athena/backfill_athena.py`
and `micro-batch/dql.py`: pure string-building functions become Lean
functions over `String`/`List Char`, Python exceptions become `Except`,
and Python `print`-to-stderr diagnostics become explicit warning lists
where a claim depends on them.  Python string primitives (`str.replace`,
`str.strip`, `str.lower`, `str.join`) are modelled by the `Py` helpers
below; `str.lower` is modelled on ASCII letters (every character this
code feeds to `lower` is either ASCII or is immediately collapsed by a
`[^a-z0-9_]` substitution, so the restriction is inessential).
-/

namespace Py

/-- Model of Python `str.lower` on a character (ASCII model: `A`-`Z`
map to `a`-`z`, all other characters are fixed). -/
def lowerChar (c : Char) : Char :=
  if 65 ≤ c.toNat ∧ c.toNat ≤ 90 then Char.ofNat (c.toNat + 32) else c

/-- Model of Python `str.lower` (ASCII model). -/
def lower (s : String) : String := ⟨s.data.map lowerChar⟩

/-- The whitespace characters stripped by Python `str.strip()`
(ASCII model: space, tab, newline, carriage return, vertical tab,
form feed). -/
def isSpace (c : Char) : Bool :=
  c.toNat = 32 || c.toNat = 9 || c.toNat = 10 || c.toNat = 13 || c.toNat = 11 || c.toNat = 12

/-- Drop the elements satisfying `p` from both ends of a list. -/
def stripIf (p : Char → Bool) (l : List Char) : List Char :=
  ((l.dropWhile p).reverse.dropWhile p).reverse

/-- Model of Python `str.strip()` (no argument: strip whitespace). -/
def strip (s : String) : String := ⟨stripIf isSpace s.data⟩

/-- Model of Python `str.strip(chars)` for a single strip character. -/
def stripChar (c : Char) (s : String) : String := ⟨stripIf (· = c) s.data⟩

/-- Worker for `replaceL`, structurally recursive on a fuel that
bounds the input length (each step consumes at least one input
character, so the fuel never runs out when it starts at the input
length). -/
def replaceLAux (pat rep : List Char) : Nat → List Char → List Char
  | 0, l => l
  | fuel + 1, l =>
    match l with
    | [] => []
    | c :: rest =>
      if pat ≠ [] ∧ pat.isPrefixOf (c :: rest) then
        rep ++ replaceLAux pat rep fuel ((c :: rest).drop pat.length)
      else
        c :: replaceLAux pat rep fuel rest

/-- Model of Python `str.replace` on character lists: scan left to
right, replacing non-overlapping occurrences of `pat` by `rep`.
(An empty `pat` leaves the list unchanged; the sources never call
`replace` with an empty pattern.) -/
def replaceL (pat rep l : List Char) : List Char :=
  replaceLAux pat rep l.length l

/-- Model of Python `str.replace`. -/
def replace (s pat rep : String) : String := ⟨replaceL pat.data rep.data s.data⟩

/-- Model of Python `sep.join(xs)`. -/
def join (sep : String) : List String → String
  | [] => ""
  | x :: xs => xs.foldl (fun acc y => acc ++ sep ++ y) x

/-- Truthiness of an optional Python string: `None` and `""` are falsy. -/
def truthy : Option String → Bool
  | none => false
  | some s => s ≠ ""

/-- Python `a or b` on optional strings. -/
def orElseStr (a b : Option String) : Option String :=
  if truthy a then a else b

/-- Python string interpolation of an `Optional[str]` (`None` prints
as `None`). -/
def showOpt : Option String → String
  | none => "None"
  | some s => s

end Py

/-- Python exceptions raised by the embedded code. -/
inductive PyError
  | runtimeError (msg : String)
  | valueError (msg : String)
  | indexError
deriving DecidableEq, Repr

/-- `s` starts with `pre` (model of Python `str.startswith`). -/
def pyStartsWith (s pre : String) : Bool := pre.data.isPrefixOf s.data

/-!
## Embedding of `micro-batch/micro_batch_data.py`

Everything below `MicroBatch.` is translated from that file; the Python
line is noted on each definition.
-/

namespace MicroBatch

/-- `sanitize_for_athena`, lines 213-223: the allowed output alphabet
`[a-z0-9_]` of the `re.sub(r"[^a-z0-9_]", "_", n)` step. -/
def allowedChar (c : Char) : Bool :=
  (97 ≤ c.toNat && c.toNat ≤ 122) || (48 ≤ c.toNat && c.toNat ≤ 57) || c.toNat = 95

/-- ASCII digit test (the `re.match(r"^[0-9]", n)` step). -/
def isDigitChar (c : Char) : Bool := 48 ≤ c.toNat && c.toNat ≤ 57

/-- `re.sub(r"_+", "_", n)`: collapse each maximal run of underscores
to a single underscore. -/
def collapseUnderscores : List Char → List Char
  | [] => []
  | [c] => [c]
  | a :: b :: rest =>
    if a = '_' ∧ b = '_' then collapseUnderscores (b :: rest)
    else a :: collapseUnderscores (b :: rest)

/-- `sanitize_for_athena` (lines 213-223): lowercase, replace every
character outside `[a-z0-9_]` by `_`, prefix `_` when the result starts
with a digit, collapse underscore runs, strip boundary underscores,
fall back to `"col"` when empty. -/
def sanitize_for_athena (name : String) : String :=
  let n := Py.lower (Py.strip name)
  let l := n.data.map (fun c => if allowedChar c then c else '_')
  let l := match l with
    | c :: _ => if isDigitChar c then '_' :: l else l
    | [] => l
  let l := Py.stripIf (· = '_') (collapseUnderscores l)
  if l.isEmpty then "col" else ⟨l⟩

/-- `_esc_ident` / the local `qident` of `build_merge_sql` (line 682):
double embedded double-quotes and wrap in double-quotes. -/
def qident (x : String) : String := "\"" ++ Py.replace x "\"" "\"\"" ++ "\""

/-- Local `qname` of `build_merge_sql` (line 685). -/
def qname (db tbl : String) : String := qident db ++ "." ++ qident tbl

/-- `_normalize_ts_type` (lines 539-544). -/
def _normalize_ts_type (t : String) : String :=
  let t := Py.strip (Py.lower t)
  if pyStartsWith t "timestamp" then "timestamp"
  else if t = "" then "varchar" else t

/-- `_is_integer_type` (lines 547-550). -/
def _is_integer_type (t : String) : Bool :=
  let t := Py.strip (Py.lower t)
  t == "integer" || t == "bigint" || t == "smallint"

/-- `_is_decimal_float_type` (lines 553-556). -/
def _is_decimal_float_type (t : String) : Bool :=
  let t := Py.strip (Py.lower t)
  pyStartsWith t "decimal" || t == "double" || t == "real" || t == "float"

/-- Python `x or default` for an optional string argument. -/
def pyOrS (o : Option String) (dflt : String) : String :=
  match o with
  | none => dflt
  | some s => if s = "" then dflt else s

/-- `_cast_expr_for_col` (lines 559-654): the per-column source-side
cast/normalization expression.  String templates are transcribed
character for character from the Python f-strings (`\x27` is the
single-quote character; the Python source writes the six-character
sequence ` ` into the SQL text, not an NBSP). -/
def _cast_expr_for_col (col : String) (target_type : Option String) (op_literal : String) : String :=
  if col = "__op" then
    let tt := pyOrS target_type "varchar"
    let lit := Py.replace (if op_literal = "" then "backfill" else op_literal) "\x27" "\x27\x27"
    "CAST(\x27" ++ lit ++ "\x27 AS " ++ tt ++ ")"
  else if col = "__ts_ms" then
    let tt := _normalize_ts_type (pyOrS target_type "timestamp")
    "CAST(format_datetime(current_timestamp AT TIME ZONE \x27Asia/Jakarta\x27, \x27yyyy-MM-dd HH:mm:ss.SSS\x27) AS " ++ tt ++ ")"
  else
    let safe_col := Py.replace col "\"" "\"\""
    match target_type with
    | none => "s.\"" ++ safe_col ++ "\""
    | some tt0 =>
      if tt0 = "" then "s.\"" ++ safe_col ++ "\""
      else
        let t := _normalize_ts_type tt0
        let base := "TRIM(REPLACE(s.\"" ++ safe_col ++ "\", \x27\\u00A0\x27,\x27\x27))"
        if _is_integer_type t then
          let id_thousands_removed := "REPLACE(" ++ base ++ ", \x27.\x27, \x27\x27)"
          let en_thousands_removed := "REPLACE(" ++ base ++ ", \x27,\x27, \x27\x27)"
          "COALESCE(" ++
            "TRY_CAST(NULLIF(REGEXP_EXTRACT(" ++
            "REGEXP_REPLACE(" ++ base ++ ", \x27[^0-9\\-,\\.]\x27, \x27\x27), \x27^-?[0-9]+\x27), \x27\x27) AS " ++ t ++ ")," ++
            "TRY_CAST(NULLIF(REGEXP_REPLACE(SPLIT_PART(" ++ id_thousands_removed ++ ", \x27,\x27, 1), \x27[^0-9\\-]\x27, \x27\x27), \x27\x27) AS " ++ t ++ ")," ++
            "TRY_CAST(NULLIF(REGEXP_REPLACE(SPLIT_PART(" ++ en_thousands_removed ++ ", \x27.\x27, 1), \x27[^0-9\\-]\x27, \x27\x27), \x27\x27) AS " ++ t ++ ")" ++
            ")"
        else if _is_decimal_float_type t then
          let id_to_en := "REPLACE(REPLACE(" ++ base ++ ", \x27.\x27, \x27\x27), \x27,\x27, \x27.\x27)"
          let en_clean := "REPLACE(" ++ base ++ ", \x27,\x27, \x27\x27)"
          "COALESCE(" ++
            "TRY_CAST(TRY_CAST(NULLIF(" ++ id_to_en ++ ", \x27\x27) AS DOUBLE) AS " ++ t ++ ")," ++
            "TRY_CAST(TRY_CAST(NULLIF(" ++ en_clean ++ ", \x27\x27) AS DOUBLE) AS " ++ t ++ ")," ++
            "TRY_CAST(NULLIF(REGEXP_REPLACE(" ++ base ++ ", \x27[^0-9\\-\\.]\x27, \x27\x27), \x27\x27) AS " ++ t ++ ")" ++
            ")"
        else if t = "boolean" then
          let norm := "LOWER(TRIM(s.\"" ++ safe_col ++ "\"))"
          "CASE WHEN " ++ norm ++ " IN (\x27t\x27,\x27true\x27,\x271\x27,\x27y\x27,\x27yes\x27) THEN TRUE WHEN " ++
            norm ++ " IN (\x27f\x27,\x27false\x27,\x270\x27,\x27n\x27,\x27no\x27) THEN FALSE ELSE NULL END"
        else if t = "timestamp" || t = "date" then
          "CASE WHEN NULLIF(TRIM(s.\"" ++ safe_col ++ "\"), \x27\x27) IS NULL THEN NULL ELSE TRY_CAST(TRIM(s.\"" ++
            safe_col ++ "\") AS " ++ t ++ ") END"
        else
          "TRY_CAST(s.\"" ++ safe_col ++ "\" AS " ++ t ++ ")"

/-- The keyword arguments of `build_merge_sql` (lines 657-674).
`prod_types` is the Python dict as an association list with unique keys
(Python dicts preserve insertion order), likewise the `extra_*`
assignment dicts. -/
structure Args where
  database : String
  staging_table : String
  prod_table : String
  pk_cols : List String
  all_cols : List String
  prod_types : List (String × String)
  updated_at_col : Option String
  op_literal : String
  exclude_update_cols : List String
  extra_on_predicates : List String
  extra_set_assignments : List (String × String)
  extra_insert_assignments : List (String × String)
  dedupe_source : Bool
  dedupe_tiebreakers : List String

/-- `dest_cols_lower = set(prod_types.keys())` (line 694), kept as the
key list (membership is all the code uses). -/
def dest_cols_lower (prod_types : List (String × String)) : List String :=
  prod_types.map Prod.fst

/-- `prod_types.get(k)` (Python dict lookup; keys are unique). -/
def typeGet (prod_types : List (String × String)) (k : String) : Option String :=
  prod_types.lookup k

/-- `merged_cols` (lines 697-703): source columns that exist in the
destination, with `__op` / `__ts_ms` appended when the destination has
them. -/
def merged_cols (all_cols : List String) (destKeys : List String) : List String :=
  let m := all_cols.filter (fun c => destKeys.contains (Py.lower c))
  let m := if destKeys.contains "__op" && !m.contains "__op" then m ++ ["__op"] else m
  if destKeys.contains "__ts_ms" && !m.contains "__ts_ms" then m ++ ["__ts_ms"] else m

/-- The `ON`-clause loop (lines 713-718): raises `RuntimeError` at the
first primary key whose lower-cased name is not a destination column
(`{pk!r}` is modelled as quote-wrapping, faithful for names without
quotes or escapes). -/
def on_parts (pk_cols : List String) (prod_types : List (String × String)) (op_literal : String) :
    Except PyError (List String) :=
  match pk_cols with
  | [] => .ok []
  | pk :: rest =>
    if (dest_cols_lower prod_types).contains (Py.lower pk) then
      match on_parts rest prod_types op_literal with
      | .ok l =>
        .ok (("t." ++ qident pk ++ " = " ++
          _cast_expr_for_col pk (typeGet prod_types (Py.lower pk)) op_literal) :: l)
      | .error e => .error e
    else
      .error (.runtimeError ("Primary key \x27" ++ pk ++ "\x27 not found in destination schema."))

/-- `updatable_cols` (line 723). -/
def updatable_cols (mc pk_cols excl destKeys : List String) : List String :=
  mc.filter (fun c => destKeys.contains (Py.lower c) && !pk_cols.contains c && !excl.contains c)

/-- The `UPDATE SET` pair list (lines 722-736): assignments for the
updatable columns, the extra-assignment injections, and the trivial
first-primary-key self-assignment fallback (`pk_cols[0]` raises
`IndexError` on an empty list). -/
def set_pairs (mc pk_cols excl : List String) (prod_types : List (String × String))
    (op_literal : String) (extra_set : List (String × String)) : Except PyError (List String) :=
  let destKeys := dest_cols_lower prod_types
  let base := (updatable_cols mc pk_cols excl destKeys).map
    (fun c => qident c ++ " = " ++ _cast_expr_for_col c (typeGet prod_types (Py.lower c)) op_literal)
  let pairs := base ++ extra_set.filterMap
    (fun p => if destKeys.contains (Py.lower p.1) then some (qident p.1 ++ " = " ++ p.2) else none)
  if pairs.isEmpty then
    match pk_cols with
    | [] => .error .indexError
    | p :: _ => .ok [qident p ++ " = t." ++ qident p]
  else .ok pairs

/-- `insert_cols` (lines 740-743): merged columns plus destination-known
extra-insert keys not already present. -/
def insert_cols (mc destKeys extraKeys : List String) : List String :=
  extraKeys.foldl
    (fun acc col => if destKeys.contains (Py.lower col) && !acc.contains col then acc ++ [col] else acc)
    mc

/-- `insert_vals_exprs` (lines 745-750). -/
def insert_vals (cols : List String) (extra_insert : List (String × String))
    (prod_types : List (String × String)) (op_literal : String) : List String :=
  cols.map (fun col =>
    match extra_insert.lookup col with
    | some e => e
    | none => _cast_expr_for_col col (typeGet prod_types (Py.lower col)) op_literal)

/-- `matched_guard` (lines 754-768): the `WHEN MATCHED` recency guard,
emitted exactly when the guard column is truthy and (lower-cased) a
destination column. -/
def matched_guard (updated_at_col : Option String) (prod_types : List (String × String)) : String :=
  match updated_at_col with
  | none => ""
  | some u =>
    if u = "" then ""
    else if (dest_cols_lower prod_types).contains (Py.lower u) then
      let u_q := qident u
      let target_u := _normalize_ts_type ((typeGet prod_types (Py.lower u)).getD "timestamp")
      "\n      AND COALESCE(\n            TRY_CAST(s." ++ u_q ++ " AS " ++ target_u ++
        "),\n            TIMESTAMP \x271970-01-01 00:00:00\x27\n          ) >\n          COALESCE(\n            TRY_CAST(t." ++
        u_q ++ " AS " ++ target_u ++ "),\n            TIMESTAMP \x271970-01-01 00:00:00\x27\n          )\n    "
    else ""

/-- The dedup `ORDER BY` key list `order_parts` (lines 774-788):
recency key (coalesced with `created_at` when both exist among the
source columns), then the tie-breakers, then the primary keys, all
`DESC`. -/
def dedup_order_parts (updated_at_col : Option String) (all_cols tiebreakers pk_cols : List String) :
    List String :=
  let u := updated_at_col.getD ""
  let has_updated := Py.truthy updated_at_col && all_cols.any (fun c => Py.lower u == Py.lower c)
  let has_created := all_cols.any (fun c => Py.lower c == "created_at")
  let head :=
    if has_updated && has_created then ["COALESCE(s." ++ qident u ++ ", s.\"created_at\") DESC"]
    else if has_updated then ["s." ++ qident u ++ " DESC"]
    else if has_created then ["s.\"created_at\" DESC"]
    else []
  head ++ tiebreakers.map (fun tb => "s." ++ qident tb ++ " DESC") ++
    pk_cols.map (fun pk => "s." ++ qident pk ++ " DESC")

/-- The `USING` subquery (lines 770-809): the ROW_NUMBER dedup subquery
when `dedupe_source`, else `SELECT *`. -/
def using_subquery (sname : String) (pk_cols all_cols ic tiebreakers : List String)
    (updated_at_col : Option String) (dedupe_source : Bool) : String :=
  if dedupe_source then
    let part_by := Py.join ", " (pk_cols.map (fun pk => "s." ++ qident pk))
    let parts := dedup_order_parts updated_at_col all_cols tiebreakers pk_cols
    let order_clause :=
      if !parts.isEmpty then Py.join ", " parts
      else Py.join ", " (pk_cols.map (fun pk => "s." ++ qident pk ++ " DESC"))
    let proj_cols := Py.join ", "
      ((ic.filter (fun c => !(Py.lower c == "__op" || Py.lower c == "__ts_ms"))).map
        (fun c => "src." ++ qident c))
    Py.strip ("\n            WITH src AS (\n              SELECT\n                s.*,\n                ROW_NUMBER() OVER (\n                  PARTITION BY " ++
      part_by ++ "\n                  ORDER BY " ++ order_clause ++
      "\n                ) AS rn\n              FROM " ++ sname ++
      " s\n            )\n            SELECT " ++ proj_cols ++
      "\n            FROM src\n            WHERE rn = 1\n        ")
  else
    "SELECT * FROM " ++ sname ++ " s"

/-- `build_merge_sql` (lines 657-819): the full type-aware MERGE
statement, or the Python exception the call raises. -/
def build_merge_sql (a : Args) : Except PyError String :=
  let tiebreakers := (a.dedupe_tiebreakers.map Py.strip).filter (fun c => c ≠ "")
  let destKeys := dest_cols_lower a.prod_types
  let mc := merged_cols a.all_cols destKeys
  let tname := qname a.database a.prod_table
  let sname := qname a.database a.staging_table
  match on_parts a.pk_cols a.prod_types a.op_literal with
  | .error e => .error e
  | .ok onp =>
    let onAll := onp ++ a.extra_on_predicates
    let on_clause := if onAll.isEmpty then "1=1" else Py.join " AND " onAll
    match set_pairs mc a.pk_cols a.exclude_update_cols a.prod_types a.op_literal a.extra_set_assignments with
    | .error e => .error e
    | .ok sp =>
      let set_clause := Py.join ", " sp
      let ic := insert_cols mc destKeys (a.extra_insert_assignments.map Prod.fst)
      let insert_cols_sql := Py.join ", " (ic.map qident)
      let insert_vals_sql := Py.join ", " (insert_vals ic a.extra_insert_assignments a.prod_types a.op_literal)
      let guard := matched_guard a.updated_at_col a.prod_types
      let usq := using_subquery sname a.pk_cols a.all_cols ic tiebreakers a.updated_at_col a.dedupe_source
      .ok (Py.strip ("\n            MERGE INTO " ++ tname ++ " t\n            USING (" ++ usq ++
        ") s\n            ON (" ++ on_clause ++ ")\n            WHEN MATCHED\n            " ++ guard ++
        "\n            THEN UPDATE SET " ++ set_clause ++
        "\n            WHEN NOT MATCHED THEN INSERT (" ++ insert_cols_sql ++ ") VALUES (" ++
        insert_vals_sql ++ ")\n            "))

end MicroBatch

/-!
## Embedding of `initial-loader-athena/backfill_athena.py`
-/

namespace Backfill

/-- `qident` (lines 37-38). -/
def qident (x : String) : String := "\"" ++ Py.replace x "\"" "\"\"" ++ "\""

/-- `_normalize_catalog` (lines 41-46). -/
def _normalize_catalog : Option String → Option String
  | none => none
  | some c => let c := Py.strip c; if c = "" then none else some c

/-- `table.split(".", 1)`. -/
def splitOnce (s : String) (sep : Char) : String × String :=
  let pre := s.data.takeWhile (· ≠ sep)
  (⟨pre⟩, ⟨s.data.drop (pre.length + 1)⟩)

/-- `fqname` (lines 48-57). -/
def fqname (catalog : Option String) (schema table : String) : String :=
  let catalog := _normalize_catalog catalog
  if table.data.contains '.' then
    let (s, t) := splitOnce table '.'
    match catalog with
    | some c => qident c ++ "." ++ qident s ++ "." ++ qident t
    | none => qident s ++ "." ++ qident t
  else
    match catalog with
    | some c => qident c ++ "." ++ qident schema ++ "." ++ qident table
    | none => qident schema ++ "." ++ qident table

/-- `_normalize_ts_type` (lines 125-129; note the `"string"` default,
unlike the micro-batch variant). -/
def _normalize_ts_type (t : String) : String :=
  let t := Py.strip (Py.lower t)
  if pyStartsWith t "timestamp" then "timestamp"
  else if t = "" then "string" else t

/-- `_is_int_type` (lines 132-134). -/
def _is_int_type (t : String) : Bool :=
  let t := Py.lower t
  t == "tinyint" || t == "smallint" || t == "integer" || t == "int" || t == "bigint"

/-- `_is_float_type` (lines 137-139). -/
def _is_float_type (t : String) : Bool :=
  let t := Py.lower t
  t == "double" || t == "real" || t == "float" || t == "double precision"

/-- `_is_decimal_type` (lines 142-144). -/
def _is_decimal_type (t : String) : Bool :=
  let t := Py.lower t
  pyStartsWith t "decimal" || pyStartsWith t "numeric"

/-- `_is_boolean_type` (lines 147-149). -/
def _is_boolean_type (t : String) : Bool :=
  let t := Py.lower t
  t == "boolean" || t == "bool"

/-- `_is_date_type` (lines 152-154). -/
def _is_date_type (t : String) : Bool := Py.lower t == "date"

/-- `_is_timestamp_type` (lines 157-158). -/
def _is_timestamp_type (t : String) : Bool := _normalize_ts_type t == "timestamp"

/-- `_is_stringish_type` (lines 161-163). -/
def _is_stringish_type (t : String) : Bool :=
  let t := Py.lower t
  pyStartsWith t "varchar" || pyStartsWith t "char" || t == "string"

/-- `_ts_literal` (lines 167-171): raises `ValueError` when the
quote-doubled, stripped bound is empty. -/
def _ts_literal (ts_str : String) : Except PyError String :=
  let safe := Py.strip (Py.replace ts_str "\x27" "\x27\x27")
  if safe = "" then .error (.valueError "Empty timestamp literal")
  else .ok ("TIMESTAMP \x27" ++ safe ++ "\x27")

/-- `_numeric_parse_expr` (lines 174-219), transcribed character for
character (the Python source emits the literal text `\\p{Zs}` and
`\\.` into the SQL, i.e. doubled backslashes). -/
def _numeric_parse_expr (col : String) (target_type : String) : String :=
  let c := Py.replace col "\"" "\"\""
  let p1 := "TRY_CAST(NULLIF(REGEXP_EXTRACT(REGEXP_REPLACE(TRIM(REGEXP_REPLACE(CAST(s.\"" ++ c ++
    "\" AS varchar), \x27\\\\p\x7bZs\x7d\x27, \x27\x27)),\x27[^0-9\\-,\\.]\x27, \x27\x27), \x27^-?[0-9]+\x27), \x27\x27) AS " ++
    target_type ++ ")"
  let p2 := "TRY_CAST(NULLIF(REGEXP_REPLACE(SPLIT_PART(REGEXP_REPLACE(TRIM(CAST(s.\"" ++ c ++
    "\" AS varchar)), \x27\\\\.\x27, \x27\x27),\x27,\x27, 1), \x27[^0-9\\-]\x27, \x27\x27), \x27\x27) AS " ++
    target_type ++ ")"
  let p3 := "TRY_CAST(NULLIF(REGEXP_REPLACE(SPLIT_PART(REGEXP_REPLACE(TRIM(CAST(s.\"" ++ c ++
    "\" AS varchar)), \x27,\x27, \x27\x27),\x27.\x27, 1), \x27[^0-9\\-]\x27, \x27\x27), \x27\x27) AS " ++
    target_type ++ ")"
  "COALESCE(" ++ p1 ++ ", " ++ p2 ++ ", " ++ p3 ++ ")"

/-- `_boolean_parse_expr` (lines 222-230). -/
def _boolean_parse_expr (col : String) : String :=
  let c := Py.replace col "\"" "\"\""
  let v := "LOWER(TRIM(CAST(s.\"" ++ c ++ "\" AS varchar)))"
  "CASE WHEN " ++ v ++ " IN (\x27t\x27,\x27true\x27,\x271\x27,\x27y\x27,\x27yes\x27) THEN TRUE WHEN " ++
    v ++ " IN (\x27f\x27,\x27false\x27,\x270\x27,\x27n\x27,\x27no\x27) THEN FALSE ELSE NULL END"

/-- `_nullable_trim_try_cast` (lines 233-240). -/
def _nullable_trim_try_cast (col : String) (target_type : String) : String :=
  let c := Py.replace col "\"" "\"\""
  "CASE WHEN NULLIF(TRIM(CAST(s.\"" ++ c ++ "\" AS varchar)), \x27\x27) IS NULL THEN NULL ELSE TRY_CAST(TRIM(CAST(s.\"" ++
    c ++ "\" AS varchar)) AS " ++ target_type ++ ") END"

/-- `_cast_expr_for_col` (lines 243-289). -/
def _cast_expr_for_col (col : String) (target_type : Option String) (op_literal : String) : String :=
  if col = "__op" then
    let tt := MicroBatch.pyOrS target_type "varchar"
    let lit := Py.replace (if op_literal = "" then "backfill" else op_literal) "\x27" "\x27\x27"
    "CAST(\x27" ++ lit ++ "\x27 AS " ++ tt ++ ")"
  else if col = "__ts_ms" then
    let tt := _normalize_ts_type (MicroBatch.pyOrS target_type "timestamp")
    "CAST(format_datetime(current_timestamp AT TIME ZONE \x27Asia/Jakarta\x27, \x27yyyy-MM-dd HH:mm:ss.SSS\x27) AS " ++ tt ++ ")"
  else
    let safe_col := Py.replace col "\"" "\"\""
    match target_type with
    | none => "s.\"" ++ safe_col ++ "\""
    | some tt0 =>
      if tt0 = "" then "s.\"" ++ safe_col ++ "\""
      else
        let tt := Py.lower (Py.strip tt0)
        if _is_int_type tt || _is_decimal_type tt || _is_float_type tt then
          _numeric_parse_expr col tt
        else if _is_boolean_type tt then
          _boolean_parse_expr col
        else if _is_timestamp_type tt || _is_date_type tt then
          _nullable_trim_try_cast col tt
        else
          "TRY_CAST(s.\"" ++ safe_col ++ "\" AS " ++ tt ++ ")"

/-- The keyword arguments of `build_merge_sql` (lines 295-316). -/
structure Args where
  source_catalog : Option String
  source_db : String
  source_table : String
  dest_catalog : Option String
  dest_db : String
  dest_table : String
  pk_cols : List String
  all_cols : List String
  dest_types : List (String × String)
  updated_at_col : Option String
  op_literal : String
  exclude_update_cols : List String
  extra_on_predicates : List String
  extra_set_assignments : List (String × String)
  extra_insert_assignments : List (String × String)
  filter_col : Option String
  filter_start_ts : Option String
  filter_end_ts : Option String

/-- `dest_cols_lower = set(dest_types.keys())` (line 322). -/
def dest_cols_lower (dest_types : List (String × String)) : List String :=
  dest_types.map Prod.fst

/-- `merged_cols` (lines 325-329). -/
def merged_cols (all_cols : List String) (destKeys : List String) : List String :=
  let m := all_cols.filter (fun c => destKeys.contains (Py.lower c))
  let m := if destKeys.contains "__op" && !m.contains "__op" then m ++ ["__op"] else m
  if destKeys.contains "__ts_ms" && !m.contains "__ts_ms" then m ++ ["__ts_ms"] else m

/-- The `ON`-clause loop (lines 339-344). -/
def on_parts (pk_cols : List String) (dest_types : List (String × String)) (op_literal : String) :
    Except PyError (List String) :=
  match pk_cols with
  | [] => .ok []
  | pk :: rest =>
    if (dest_cols_lower dest_types).contains (Py.lower pk) then
      match on_parts rest dest_types op_literal with
      | .ok l =>
        .ok (("t." ++ qident pk ++ " = " ++
          _cast_expr_for_col pk (dest_types.lookup (Py.lower pk)) op_literal) :: l)
      | .error e => .error e
    else
      .error (.runtimeError ("Primary key \x27" ++ pk ++ "\x27 not found in destination schema."))

/-- One `conds.append(...)` step of `_mk_range_where`: when the bound
is truthy, the comparison text followed by the timestamp literal
(raising whatever `_ts_literal` raises); otherwise no condition. -/
def _range_cond (txt : String) (bound : Option String) : Except PyError (List String) :=
  match bound with
  | some v =>
    if v ≠ "" then (do
      let l ← _ts_literal v
      pure [txt ++ l])
    else pure ([] : List String)
  | none => pure ([] : List String)

/-- `_mk_range_where` (lines 357-363): the half-open range predicate,
inclusive at the start bound and exclusive at the end bound. -/
def _mk_range_where (dest_types : List (String × String))
    (filter_start_ts filter_end_ts : Option String) (col : String) : Except PyError String := do
  let tgt := _normalize_ts_type ((dest_types.lookup (Py.lower col)).getD "timestamp")
  let c1 ← _range_cond ("TRY_CAST(" ++ qident col ++ " AS " ++ tgt ++ ") >= ") filter_start_ts
  let c2 ← _range_cond ("TRY_CAST(" ++ qident col ++ " AS " ++ tgt ++ ") < ") filter_end_ts
  let conds := c1 ++ c2
  pure (if conds.isEmpty then "1=1" else Py.join " AND " conds)

/-- `bool(col) and col.lower() in src_cols_lower` — the `has_eff_col`
and `has_updated` tests of lines 354 and 372. -/
def boolHasCol (src_cols_lower : List String) : Option String → Bool
  | none => false
  | some s => s ≠ "" && src_cols_lower.contains (Py.lower s)

/-- A filter bound that `_ts_literal` accepts without raising: absent,
falsy, or non-blank once quotes are doubled and whitespace stripped. -/
def tsBoundOk : Option String → Bool
  | none => true
  | some v => v == "" || !(Py.strip (Py.replace v "\x27" "\x27\x27") == "")

/-- The `USING` subquery with optional range filter (lines 348-385),
together with the `[WARN]` diagnostics the branch prints to stderr. -/
def using_subquery_b (sname : String) (dest_types : List (String × String)) (all_cols : List String)
    (updated_at_col filter_col filter_start_ts filter_end_ts : Option String) :
    Except PyError (String × List String) :=
  let src_cols_lower := all_cols.map (fun c => Py.lower c)
  let eff_filter_col := Py.orElseStr filter_col updated_at_col
  let has_eff_col := boolHasCol src_cols_lower eff_filter_col
  if (Py.truthy filter_start_ts || Py.truthy filter_end_ts) && has_eff_col then do
    let w ← _mk_range_where dest_types filter_start_ts filter_end_ts (eff_filter_col.getD "")
    pure ("SELECT * FROM " ++ sname ++ " WHERE " ++ w, [])
  else if Py.truthy filter_start_ts || Py.truthy filter_end_ts then
    pure ("SELECT * FROM " ++ sname,
      ["[WARN] Filter column \x27" ++ Py.showOpt eff_filter_col ++ "\x27 not found in source; ignoring start/end filter."])
  else
    let has_updated := boolHasCol src_cols_lower updated_at_col
    if has_updated then
      let u := updated_at_col.getD ""
      let target_u := _normalize_ts_type ((dest_types.lookup (Py.lower u)).getD "timestamp")
      pure (Py.strip ("\n            SELECT *\n            FROM " ++ sname ++
        "\n            WHERE COALESCE(\n                    TRY_CAST(" ++ qident u ++ " AS " ++ target_u ++
        "),\n                    TIMESTAMP \x271970-01-01 00:00:00\x27\n                  ) >\n                  CAST(date_add(\x27day\x27, -30, current_date) AS timestamp)\n            "), [])
    else
      pure ("SELECT * FROM " ++ sname, [])

/-- `updatable_cols` (lines 388-391). -/
def updatable_cols (mc pk_cols excl destKeys : List String) : List String :=
  mc.filter (fun c => destKeys.contains (Py.lower c) && !pk_cols.contains c && !excl.contains c)

/-- The `UPDATE SET` pair list (lines 387-403). -/
def set_pairs (mc pk_cols excl : List String) (dest_types : List (String × String))
    (op_literal : String) (extra_set : List (String × String)) : Except PyError (List String) :=
  let destKeys := dest_cols_lower dest_types
  let base := (updatable_cols mc pk_cols excl destKeys).map
    (fun c => qident c ++ " = " ++ _cast_expr_for_col c (dest_types.lookup (Py.lower c)) op_literal)
  let pairs := base ++ extra_set.filterMap
    (fun p => if destKeys.contains (Py.lower p.1) then some (qident p.1 ++ " = " ++ p.2) else none)
  if pairs.isEmpty then
    match pk_cols with
    | [] => .error .indexError
    | p :: _ => .ok [qident p ++ " = t." ++ qident p]
  else .ok pairs

/-- `insert_cols` (lines 406-409). -/
def insert_cols (mc destKeys extraKeys : List String) : List String :=
  extraKeys.foldl
    (fun acc col => if destKeys.contains (Py.lower col) && !acc.contains col then acc ++ [col] else acc)
    mc

/-- `insert_vals_exprs` (lines 411-418). -/
def insert_vals (cols : List String) (extra_insert : List (String × String))
    (dest_types : List (String × String)) (op_literal : String) : List String :=
  cols.map (fun col =>
    match extra_insert.lookup col with
    | some e => e
    | none => _cast_expr_for_col col (dest_types.lookup (Py.lower col)) op_literal)

/-- `matched_guard` (lines 420-434); textually identical to the
micro-batch variant. -/
def matched_guard (updated_at_col : Option String) (dest_types : List (String × String)) : String :=
  match updated_at_col with
  | none => ""
  | some u =>
    if u = "" then ""
    else if (dest_cols_lower dest_types).contains (Py.lower u) then
      let u_q := qident u
      let target_u := _normalize_ts_type ((dest_types.lookup (Py.lower u)).getD "timestamp")
      "\n      AND COALESCE(\n            TRY_CAST(s." ++ u_q ++ " AS " ++ target_u ++
        "),\n            TIMESTAMP \x271970-01-01 00:00:00\x27\n          ) >\n          COALESCE(\n            TRY_CAST(t." ++
        u_q ++ " AS " ++ target_u ++ "),\n            TIMESTAMP \x271970-01-01 00:00:00\x27\n          )\n    "
    else ""

/-- `build_merge_sql` (lines 295-444).  The raising order mirrors the
Python control flow: `ON` clause, then `USING` subquery, then
`UPDATE SET`. -/
def build_merge_sql (a : Args) : Except PyError String :=
  let destKeys := dest_cols_lower a.dest_types
  let mc := merged_cols a.all_cols destKeys
  let tname := fqname a.dest_catalog a.dest_db a.dest_table
  let sname := fqname a.source_catalog a.source_db a.source_table
  match on_parts a.pk_cols a.dest_types a.op_literal with
  | .error e => .error e
  | .ok onp =>
    let onAll := onp ++ a.extra_on_predicates
    let on_clause := if onAll.isEmpty then "1=1" else Py.join " AND " onAll
    match using_subquery_b sname a.dest_types a.all_cols a.updated_at_col a.filter_col
        a.filter_start_ts a.filter_end_ts with
    | .error e => .error e
    | .ok (usq, _warns) =>
      match set_pairs mc a.pk_cols a.exclude_update_cols a.dest_types a.op_literal
          a.extra_set_assignments with
      | .error e => .error e
      | .ok sp =>
        let set_clause := Py.join ", " sp
        let ic := insert_cols mc destKeys (a.extra_insert_assignments.map Prod.fst)
        let insert_cols_sql := Py.join ", " (ic.map qident)
        let insert_vals_sql := Py.join ", " (insert_vals ic a.extra_insert_assignments a.dest_types a.op_literal)
        let guard := matched_guard a.updated_at_col a.dest_types
        .ok (Py.strip ("\n    MERGE INTO " ++ tname ++ " t\n    USING (" ++ usq ++
          ") s\n      ON (" ++ on_clause ++ ")\n    WHEN MATCHED\n      " ++ guard ++
          "\n    THEN UPDATE SET " ++ set_clause ++
          "\n    WHEN NOT MATCHED THEN INSERT (" ++ insert_cols_sql ++ ") VALUES (" ++
          insert_vals_sql ++ ")\n    "))

end Backfill

namespace MicroBatch

/-- Outcome of `align_df_columns_with_pg`: the DataFrame's column-name
list after renaming/sanitizing, plus the `[WARN]` lines printed to
stderr.  Only column names matter to the function, so the frame is
represented by its name list. -/
structure AlignResult where
  cols : List String
  warns : List String
deriving DecidableEq, Repr

/-- A Python rename dict built from `(old, new)` pairs: the last
binding of a key wins, unmapped names stay. -/
def renameWith (m : List (String × String)) (c : String) : String :=
  match m.reverse.lookup c with
  | some v => v
  | none => c

/-- Strategy A's `rename_map` construction (lines 410-416): first
incoming column wins each case-insensitive target name (`used` set). -/
def strategyAMap (df_cols target_cols : List String) : List (String × String) :=
  let tIndex := (target_cols.map (fun c => (Py.lower c, c))).reverse
  (df_cols.foldl
    (fun (acc : List (String × String) × List String) col =>
      let lc := Py.lower col
      match tIndex.lookup lc with
      | some tgt => if acc.2.contains lc then acc else (acc.1 ++ [(col, tgt)], acc.2 ++ [lc])
      | none => acc)
    ([], [])).1

/-- The effective target list of `align_df_columns_with_pg` (lines
389-398): the production column list when supplied and non-empty, else
the DDL list, minus the `__op`/`__ts_ms` meta columns when requested. -/
def targetCols (prod_cols : Option (List String)) (ddl_cols : List String)
    (exclude_prod_meta : Bool) : List String :=
  let target_cols0 :=
    match prod_cols with
    | some l => if l.isEmpty then ddl_cols else l
    | none => ddl_cols
  if exclude_prod_meta then target_cols0.filter (fun c => !(c == "__op" || c == "__ts_ms"))
  else target_cols0

/-- `align_df_columns_with_pg` (lines 367-437): positional rename on a
count match with the DDL list, else name-based alignment against the
(meta-stripped) target list, else tail positional alignment, else head
positional alignment; every branch sanitizes the resulting names. -/
def align_df_columns_with_pg (df_cols ddl_cols : List String) (relax : Bool)
    (prod_cols : Option (List String)) (exclude_prod_meta : Bool) : AlignResult :=
  let _ := relax
  let prodFalsy := match prod_cols with | none => true | some l => l.isEmpty
  if ddl_cols.isEmpty && prodFalsy then
    ⟨df_cols.map sanitize_for_athena, []⟩
  else if !ddl_cols.isEmpty && df_cols.length = ddl_cols.length then
    let mapping := df_cols.zip ddl_cols
    ⟨df_cols.map (fun c => sanitize_for_athena (renameWith mapping c)), []⟩
  else
    let target_cols := targetCols prod_cols ddl_cols exclude_prod_meta
    if target_cols.isEmpty then ⟨df_cols.map sanitize_for_athena, []⟩
    else
      let target_lower := target_cols.map Py.lower
      let df_lower := df_cols.map Py.lower
      if target_lower.all (fun c => df_lower.contains c) then
        let m := strategyAMap df_cols target_cols
        ⟨df_cols.map (fun c => sanitize_for_athena (renameWith m c)), []⟩
      else
        let n_df := df_cols.length
        let n_tgt := target_cols.length
        if n_df ≥ n_tgt then
          let df_tail := df_cols.drop (n_df - n_tgt)
          let mapping := df_tail.zip target_cols
          let warns :=
            if df_tail.length ≠ n_tgt then
              ["[WARN] Tail alignment mismatch: df_tail=" ++ toString df_tail.length ++
                " vs target=" ++ toString n_tgt ++ ". Using min length."]
            else []
          ⟨df_cols.map (fun c => sanitize_for_athena (renameWith mapping c)), warns⟩
        else
          let mapping := df_cols.zip target_cols
          ⟨df_cols.map (fun c => sanitize_for_athena (renameWith mapping c)),
            ["[WARN] DataFrame has fewer columns than target (df=" ++ toString n_df ++
              ", target=" ++ toString n_tgt ++ "). Aligning first " ++ toString n_df ++ " by position."]⟩

end MicroBatch

/-!
## Value-level semantics of the compiled numeric expressions

The decimal/float expression emitted by
`MicroBatch._cast_expr_for_col` and the numeric expression emitted by
`Backfill._numeric_parse_expr` are fixed templates over one source
value; the two evaluators below give their run-time meaning on a
(text) source value, with Trino `DOUBLE` idealized as an exact
rational (the claim concerns the locale normalization, not binary
rounding) and the outer `TRY_CAST` to the numeric destination type
taken at a `double` destination, where it is the identity.  The
template's `REPLACE(s, ' ','')` replaces the literal
six-character sequence ` ` (the Python source escapes the
backslash), and the `'\\p{Zs}'` / `'\\.'` regex patterns of the
backfill template each begin with an escaped backslash, so on
backslash-free inputs — such as the claim's — they match nothing;
both are evaluated accordingly. -/

namespace Eval

/-- ASCII digit. -/
def isDig (c : Char) : Bool := 48 ≤ c.toNat && c.toNat ≤ 57

/-- Numeric value of a digit run. -/
def parseDigits (l : List Char) : Nat := l.foldl (fun acc c => acc * 10 + (c.toNat - 48)) 0

/-- The rational number denoted by a scaled decimal
`(mantissa, scale)`: `mantissa / 10 ^ scale`. -/
def scaledToRat (p : Int × Nat) : ℚ := (p.1 : ℚ) / 10 ^ p.2

/-- Trino `TRY_CAST(v AS DOUBLE)` on a plain decimal literal
(optional sign, digits, at most one dot, at least one digit),
idealized as an exact scaled decimal; anything else is `NULL`. -/
def tryCastDouble (s : String) : Option (Int × Nat) :=
  let (sign, body) :=
    match s.data with
    | '-' :: r => ((-1 : Int), r)
    | '+' :: r => ((1 : Int), r)
    | r => ((1 : Int), r)
  let intPart := body.takeWhile isDig
  let rest := body.drop intPart.length
  match rest with
  | [] => if intPart.isEmpty then none else some (sign * (parseDigits intPart : Int), 0)
  | '.' :: frac =>
    if frac.all isDig && !(intPart.isEmpty && frac.isEmpty) then
      some (sign * ((parseDigits intPart * 10 ^ frac.length + parseDigits frac : Nat) : Int),
        frac.length)
    else none
  | _ => none

/-- Value of the decimal/float-family expression of
`MicroBatch._cast_expr_for_col` (lines 616-634) on source text `s`,
at a `double` destination: try the ID→EN rewrite (drop dots, comma
becomes dot), then the EN cleanup (drop commas), then the
strip-to-`[0-9.-]` fallback. -/
def decimal_normalize (s : String) : Option (Int × Nat) :=
  let base := Py.strip (Py.replace s "\\u00A0" "")
  let id_to_en := Py.replace (Py.replace base "." "") "," "."
  let en_clean := Py.replace base "," ""
  let p1 := if id_to_en = "" then none else tryCastDouble id_to_en
  let p2 := if en_clean = "" then none else tryCastDouble en_clean
  let stripped : String := ⟨base.data.filter (fun c => isDig c || c = '-' || c = '.')⟩
  let p3 := if stripped = "" then none else tryCastDouble stripped
  (p1.orElse fun _ => p2).orElse fun _ => p3

/-- `REGEXP_EXTRACT(l, '^-?[0-9]+')`: the leading signed integer run,
`NULL` when the text does not start with one. -/
def leadingIntRun (l : List Char) : Option (List Char) :=
  match l with
  | '-' :: rest => let ds := rest.takeWhile isDig; if ds.isEmpty then none else some ('-' :: ds)
  | _ => let ds := l.takeWhile isDig; if ds.isEmpty then none else some ds

/-- Value of the `Backfill._numeric_parse_expr` expression
(lines 174-219) on backslash-free source text `s`, at a `double`
destination: leading-integer extract over `[0-9,.-]`-filtered text,
then split-before-comma, then drop-commas-split-before-dot. -/
def numeric_parse_eval (s : String) : Option (Int × Nat) :=
  let t := (Py.strip s).data
  let cleaned1 := t.filter (fun c => isDig c || c = '-' || c = ',' || c = '.')
  let p1 :=
    match leadingIntRun cleaned1 with
    | none => none
    | some l => if l.isEmpty then none else tryCastDouble ⟨l⟩
  let before2 := (t.takeWhile (· ≠ ',')).filter (fun c => isDig c || c = '-')
  let p2 := if before2.isEmpty then none else tryCastDouble ⟨before2⟩
  let noComma := (Py.replace (Py.strip s) "," "").data
  let before3 := (noComma.takeWhile (· ≠ '.')).filter (fun c => isDig c || c = '-')
  let p3 := if before3.isEmpty then none else tryCastDouble ⟨before3⟩
  (p1.orElse fun _ => p2).orElse fun _ => p3

end Eval

/-!
## Embedding of `micro-batch/dql.py`: `ensure_hour_grid_range`

Timestamps are modelled at hour granularity — a `Nat` counting hours
since 1970-01-01 00:00 UTC — which is exact for the claim's scope
(start/end on hour boundaries).  `strftime("%Y-%m-%d %H:00:00")` is
implemented with the standard civil-from-days conversion. -/

namespace Dql

/-- Days-to-civil conversion (proleptic Gregorian), for day numbers
since 1970-01-01: returns `(year, month, day)`. -/
def civilFromDays (z0 : Int) : Int × Int × Int :=
  let z := z0 + 719468
  let era := (if 0 ≤ z then z else z - 146096) / 146097
  let doe := z - era * 146097
  let yoe := (doe - doe / 1460 + doe / 36524 - doe / 146096) / 365
  let y := yoe + era * 400
  let doy := doe - (365 * yoe + yoe / 4 - yoe / 100)
  let mp := (5 * doy + 2) / 153
  let d := doy - (153 * mp + 2) / 5 + 1
  let m := mp + (if mp < 10 then 3 else -9)
  (y + (if m ≤ 2 then 1 else 0), m, d)

/-- Two-digit zero-padded rendering. -/
def pad2 (n : Int) : String :=
  if n < 10 then "0" ++ toString n else toString n

/-- Four-digit zero-padded rendering (`%Y`). -/
def pad4 (n : Int) : String :=
  if n < 10 then "000" ++ toString n
  else if n < 100 then "00" ++ toString n
  else if n < 1000 then "0" ++ toString n
  else toString n

/-- `t.strftime("%Y-%m-%d %H:00:00")` for hour index `h`. -/
def fmtHourSlot (h : Nat) : String :=
  let (y, m, d) := civilFromDays (h / 24 : Nat)
  pad4 y ++ "-" ++ pad2 m ++ "-" ++ pad2 d ++ " " ++ pad2 (h % 24 : Nat) ++ ":00:00"

/-- The slot labels of the loop in lines 100-104: one per hour of
`[start_dt, end_dt)`, in chronological order. -/
def hourSlots (start_dt end_dt : Nat) : List String :=
  (List.range (end_dt - start_dt)).map (fun i => fmtHourSlot (start_dt + i))

/-- A pandas frame as `ensure_hour_grid_range` consumes it: its column
names, and its rows projected onto `(hours_col, value_col)`. -/
structure HourDF where
  columns : List String
  rows : List (String × Int)
deriving DecidableEq, Repr

/-- The int64 range test of the final `astype("int64")` cast. -/
def int64Ok (v : Int) : Bool := -(2 ^ 63) ≤ v && v < 2 ^ 63

/-- The row set of `grid.merge(df[[hours_col, value_col]], on=hours_col,
how="left").fillna({value_col: 0})`: one output row per grid slot and
matching frame row, in grid order, a single 0-filled row for a slot
with no match. -/
def leftJoinFill (rows : List (String × Int)) (slots : List String) : List (String × Int) :=
  (slots.map (fun slot =>
    match rows.filter (fun r => r.1 = slot) with
    | [] => [(slot, 0)]
    | ms => ms.map (fun r => (slot, r.2)))).flatten

/-- `ensure_hour_grid_range` (lines 91-116): the full hour grid with an
all-zero value column when the frame is empty; a `ValueError` when a
non-empty frame lacks the hour or value column; otherwise the left
join of the grid with the frame on the hour label, nulls filled with
0, followed by the `astype("int64")` cast, which raises once a joined
value falls outside the 64-bit signed range (the interpolated
missing-column set and the pandas overflow message are not reproduced
in the error texts; the cast of the all-zero column of the empty
branch never raises). -/
def ensure_hour_grid_range (df : HourDF) (value_col : String) (start_dt end_dt : Nat)
    (hours_col : String) : Except String (List (String × Int)) :=
  let slots := hourSlots start_dt end_dt
  if df.rows.isEmpty then
    .ok (slots.map (fun s => (s, 0)))
  else if !(df.columns.contains hours_col && df.columns.contains value_col) then
    .error "ensure_hour_grid_range: missing columns"
  else
    let out := leftJoinFill df.rows slots
    if out.all (fun r => int64Ok r.2) then .ok out
    else .error "OverflowError: value out of int64 range"

end Dql

/-!
## Helper lemmas
-/

theorem strData_ext {a b : String} (h : a.data = b.data) : a = b := by
  cases a; cases b; simp only [String.data] at h; subst h; rfl

theorem strAssoc (a b c : String) : a ++ b ++ c = a ++ (b ++ c) := by
  apply strData_ext
  simp [String.data_append]

theorem dropWhile_append_of_exists {p : Char → Bool} {a : List Char}
    (h : ∃ x ∈ a, p x = false) (b : List Char) :
    (a ++ b).dropWhile p = a.dropWhile p ++ b := by
  induction a with
  | nil => simp at h
  | cons c a ih =>
    by_cases hc : p c
    · obtain ⟨x, hx, hpx⟩ := h
      rcases List.mem_cons.mp hx with rfl | hx'
      · exact absurd hc (by simp [hpx])
      · simp only [List.cons_append, List.dropWhile_cons, hc]
        exact ih ⟨x, hx', hpx⟩
    · simp [List.dropWhile_cons, hc]

theorem stripIf_append_append {p : Char → Bool} {a m b : List Char}
    (ha : ∃ x ∈ a, p x = false) (hb : ∃ x ∈ b, p x = false) :
    Py.stripIf p (a ++ (m ++ b)) = a.dropWhile p ++ (m ++ (b.reverse.dropWhile p).reverse) := by
  have hb' : ∃ x ∈ b.reverse, p x = false := by
    obtain ⟨x, hx, hpx⟩ := hb
    exact ⟨x, List.mem_reverse.mpr hx, hpx⟩
  unfold Py.stripIf
  rw [dropWhile_append_of_exists ha (m ++ b)]
  rw [show (a.dropWhile p ++ (m ++ b)).reverse =
    b.reverse ++ (m.reverse ++ (a.dropWhile p).reverse) by simp]
  rw [dropWhile_append_of_exists hb' _]
  simp [List.reverse_append, List.reverse_reverse, List.append_assoc]

/-- A non-space character of the left factor survives into any
extension on the right. -/
theorem exists_nonspace_append_left {s : String} (t : String)
    (h : ∃ x ∈ s.data, Py.isSpace x = false) :
    ∃ x ∈ (s ++ t).data, Py.isSpace x = false := by
  obtain ⟨x, hx, hpx⟩ := h
  exact ⟨x, by simp [String.data_append]; exact Or.inl hx, hpx⟩

/-- `Py.strip` of a three-part concatenation keeps the middle part
intact when the outer parts contain non-space characters. -/
theorem strip_factor_mid {A B : String} (m : String)
    (hA : ∃ x ∈ A.data, Py.isSpace x = false)
    (hB : ∃ x ∈ B.data, Py.isSpace x = false) :
    ∃ p q : String, Py.strip (A ++ (m ++ B)) = p ++ (m ++ q) := by
  refine ⟨⟨A.data.dropWhile Py.isSpace⟩, ⟨(B.data.reverse.dropWhile Py.isSpace).reverse⟩, ?_⟩
  apply strData_ext
  show (Py.stripIf Py.isSpace (A ++ (m ++ B)).data) = _
  rw [show (A ++ (m ++ B)).data = A.data ++ (m.data ++ B.data) by simp [String.data_append]]
  rw [stripIf_append_append hA hB]
  simp [String.data_append]

/-- `Py.strip` of the 15-part MERGE template keeps the 8th part (the
guard slot) intact, because the surrounding template literals contain
non-space characters. -/
theorem strip_chain_factor (l1 t l2 u l3 o l4 g l5 s l6 i l7 v l8 : String)
    (h1 : ∃ x ∈ l1.data, Py.isSpace x = false)
    (h5 : ∃ x ∈ l5.data, Py.isSpace x = false) :
    ∃ p q, Py.strip (l1 ++ t ++ l2 ++ u ++ l3 ++ o ++ l4 ++ g ++ l5 ++ s ++ l6 ++ i ++ l7 ++ v ++ l8) =
      p ++ (g ++ q) := by
  have hX : l1 ++ t ++ l2 ++ u ++ l3 ++ o ++ l4 ++ g ++ l5 ++ s ++ l6 ++ i ++ l7 ++ v ++ l8 =
      (l1 ++ (t ++ (l2 ++ (u ++ (l3 ++ (o ++ l4)))))) ++
        (g ++ (l5 ++ (s ++ (l6 ++ (i ++ (l7 ++ (v ++ l8))))))) := by
    simp only [strAssoc]
  rw [hX]
  exact strip_factor_mid g (exists_nonspace_append_left _ h1) (exists_nonspace_append_left _ h5)

/-!
## Claims
-/

/-- Claim C8: statement composition is deterministic — two calls to
either `build_merge_sql` with identical inputs return identical
statement text.  The embedded composers are pure functions of their
argument records (the only ambient notions in the statement text,
`current_timestamp`/`current_date`, are SQL text evaluated by the
engine, not at composition time), so equal inputs give equal text. -/
theorem claim_C8 (a b : MicroBatch.Args) (hab : a = b) (c d : Backfill.Args) (hcd : c = d) :
    MicroBatch.build_merge_sql a = MicroBatch.build_merge_sql b ∧
    Backfill.build_merge_sql c = Backfill.build_merge_sql d := by
  subst hab; subst hcd; exact ⟨rfl, rfl⟩

/-- Concrete instantiation of C8. -/
theorem claim_C8_witness :
    MicroBatch.build_merge_sql
        ⟨"db", "stg", "prod", ["id"], ["id", "v"], [("id", "bigint"), ("v", "varchar")],
          some "updated_at", "backfill", [], [], [], [], true, []⟩ =
      MicroBatch.build_merge_sql
        ⟨"db", "stg", "prod", ["id"], ["id", "v"], [("id", "bigint"), ("v", "varchar")],
          some "updated_at", "backfill", [], [], [], [], true, []⟩ ∧
    Backfill.build_merge_sql
        ⟨none, "sdb", "stab", none, "ddb", "dtab", ["id"], ["id", "v"],
          [("id", "bigint"), ("v", "varchar")], some "updated_at", "backfill", [], [], [], [],
          none, none, none⟩ =
      Backfill.build_merge_sql
        ⟨none, "sdb", "stab", none, "ddb", "dtab", ["id"], ["id", "v"],
          [("id", "bigint"), ("v", "varchar")], some "updated_at", "backfill", [], [], [], [],
          none, none, none⟩ :=
  claim_C8 _ _ rfl _ _ rfl

set_option maxRecDepth 8000 in
/-- Claim C4 (code bug): the claim — and the code's own docstrings —
require both `"1.234,56"` and `"1,234.56"` to normalize to 1234.56
against a decimal/float destination.  The compiled expressions do not:
the micro-batch expression tries the dot-removing, comma-to-dot
rewrite first, which turns `"1,234.56"` into the successfully parsed
`"1.23456"`, so the value is 1.23456; the backfill variant routes
decimal targets through its leading-integer parser, which yields 1 for
both inputs.  This theorem pins the compiled expression text and
evaluates both value-level models at the claimed inputs. -/
theorem claim_C4 :
    MicroBatch._cast_expr_for_col "amount" (some "double") "backfill" =
      "COALESCE(TRY_CAST(TRY_CAST(NULLIF(REPLACE(REPLACE(TRIM(REPLACE(s.\"amount\", \x27\\u00A0\x27,\x27\x27)), \x27.\x27, \x27\x27), \x27,\x27, \x27.\x27), \x27\x27) AS DOUBLE) AS double),TRY_CAST(TRY_CAST(NULLIF(REPLACE(TRIM(REPLACE(s.\"amount\", \x27\\u00A0\x27,\x27\x27)), \x27,\x27, \x27\x27), \x27\x27) AS DOUBLE) AS double),TRY_CAST(NULLIF(REGEXP_REPLACE(TRIM(REPLACE(s.\"amount\", \x27\\u00A0\x27,\x27\x27)), \x27[^0-9\\-\\.]\x27, \x27\x27), \x27\x27) AS double))" ∧
    Backfill._cast_expr_for_col "amount" (some "double") "backfill" =
      Backfill._numeric_parse_expr "amount" "double" ∧
    (Eval.decimal_normalize "1.234,56").map Eval.scaledToRat = some ((123456 : ℚ) / 100) ∧
    (Eval.decimal_normalize "1,234.56").map Eval.scaledToRat = some ((123456 : ℚ) / 100000) ∧
    (Eval.decimal_normalize "1,234.56").map Eval.scaledToRat ≠ some ((123456 : ℚ) / 100) ∧
    (Eval.numeric_parse_eval "1.234,56").map Eval.scaledToRat = some 1 ∧
    (Eval.numeric_parse_eval "1,234.56").map Eval.scaledToRat = some 1 := by
  have h1 : Eval.decimal_normalize "1.234,56" = some (123456, 2) := by decide
  have h2 : Eval.decimal_normalize "1,234.56" = some (123456, 5) := by decide
  have h3 : Eval.numeric_parse_eval "1.234,56" = some (1, 0) := by decide
  have h4 : Eval.numeric_parse_eval "1,234.56" = some (1, 0) := by decide
  refine ⟨by decide, by decide, ?_, ?_, ?_, ?_, ?_⟩
  · rw [h1]; simp [Eval.scaledToRat]; norm_num
  · rw [h2]; simp [Eval.scaledToRat]; norm_num
  · rw [h2]; simp [Eval.scaledToRat]; norm_num
  · rw [h3]; simp [Eval.scaledToRat]
  · rw [h4]; simp [Eval.scaledToRat]

theorem micro_on_parts_ok (pks : List String) (types : List (String × String)) (op : String)
    (h : ∀ pk ∈ pks, (MicroBatch.dest_cols_lower types).contains (Py.lower pk) = true) :
    ∃ l, MicroBatch.on_parts pks types op = .ok l := by
  induction pks with
  | nil => exact ⟨[], rfl⟩
  | cons pk rest ih =>
    obtain ⟨l, hl⟩ := ih (fun p hp => h p (List.mem_cons_of_mem _ hp))
    refine ⟨("t." ++ MicroBatch.qident pk ++ " = " ++
      MicroBatch._cast_expr_for_col pk (MicroBatch.typeGet types (Py.lower pk)) op) :: l, ?_⟩
    rw [MicroBatch.on_parts, if_pos (h pk (List.mem_cons_self _ _)), hl]

theorem micro_on_parts_err (pks : List String) (types : List (String × String)) (op : String)
    (h : ∃ pk ∈ pks, (MicroBatch.dest_cols_lower types).contains (Py.lower pk) = false) :
    ∃ pk ∈ pks, (MicroBatch.dest_cols_lower types).contains (Py.lower pk) = false ∧
      MicroBatch.on_parts pks types op =
        .error (.runtimeError ("Primary key \x27" ++ pk ++ "\x27 not found in destination schema.")) := by
  induction pks with
  | nil => simp at h
  | cons pk rest ih =>
    by_cases hc : (MicroBatch.dest_cols_lower types).contains (Py.lower pk) = true
    · have hrest : ∃ p ∈ rest, (MicroBatch.dest_cols_lower types).contains (Py.lower p) = false := by
        obtain ⟨p, hp, hpf⟩ := h
        rcases List.mem_cons.mp hp with rfl | hp'
        · rw [hpf] at hc; exact Bool.noConfusion hc
        · exact ⟨p, hp', hpf⟩
      obtain ⟨p, hp, hpf, heq⟩ := ih hrest
      refine ⟨p, List.mem_cons_of_mem _ hp, hpf, ?_⟩
      rw [MicroBatch.on_parts, if_pos hc, heq]
    · have hcf : (MicroBatch.dest_cols_lower types).contains (Py.lower pk) = false := by
        rwa [Bool.not_eq_true] at hc
      refine ⟨pk, List.mem_cons_self _ _, hcf, ?_⟩
      rw [MicroBatch.on_parts, if_neg hc]

theorem backfill_on_parts_ok (pks : List String) (types : List (String × String)) (op : String)
    (h : ∀ pk ∈ pks, (Backfill.dest_cols_lower types).contains (Py.lower pk) = true) :
    ∃ l, Backfill.on_parts pks types op = .ok l := by
  induction pks with
  | nil => exact ⟨[], rfl⟩
  | cons pk rest ih =>
    obtain ⟨l, hl⟩ := ih (fun p hp => h p (List.mem_cons_of_mem _ hp))
    refine ⟨("t." ++ Backfill.qident pk ++ " = " ++
      Backfill._cast_expr_for_col pk (types.lookup (Py.lower pk)) op) :: l, ?_⟩
    rw [Backfill.on_parts, if_pos (h pk (List.mem_cons_self _ _)), hl]

theorem backfill_on_parts_err (pks : List String) (types : List (String × String)) (op : String)
    (h : ∃ pk ∈ pks, (Backfill.dest_cols_lower types).contains (Py.lower pk) = false) :
    ∃ pk ∈ pks, (Backfill.dest_cols_lower types).contains (Py.lower pk) = false ∧
      Backfill.on_parts pks types op =
        .error (.runtimeError ("Primary key \x27" ++ pk ++ "\x27 not found in destination schema.")) := by
  induction pks with
  | nil => simp at h
  | cons pk rest ih =>
    by_cases hc : (Backfill.dest_cols_lower types).contains (Py.lower pk) = true
    · have hrest : ∃ p ∈ rest, (Backfill.dest_cols_lower types).contains (Py.lower p) = false := by
        obtain ⟨p, hp, hpf⟩ := h
        rcases List.mem_cons.mp hp with rfl | hp'
        · rw [hpf] at hc; exact Bool.noConfusion hc
        · exact ⟨p, hp', hpf⟩
      obtain ⟨p, hp, hpf, heq⟩ := ih hrest
      refine ⟨p, List.mem_cons_of_mem _ hp, hpf, ?_⟩
      rw [Backfill.on_parts, if_pos hc, heq]
    · have hcf : (Backfill.dest_cols_lower types).contains (Py.lower pk) = false := by
        rwa [Bool.not_eq_true] at hc
      refine ⟨pk, List.mem_cons_self _ _, hcf, ?_⟩
      rw [Backfill.on_parts, if_neg hc]

theorem micro_set_pairs_ok (mc pks excl : List String) (types : List (String × String))
    (op : String) (extra : List (String × String)) (hne : pks ≠ []) :
    ∃ l, MicroBatch.set_pairs mc pks excl types op extra = .ok l := by
  cases pks with
  | nil => exact absurd rfl hne
  | cons p r =>
    simp only [MicroBatch.set_pairs]
    split
    · exact ⟨_, rfl⟩
    · exact ⟨_, rfl⟩

theorem backfill_set_pairs_ok (mc pks excl : List String) (types : List (String × String))
    (op : String) (extra : List (String × String)) (hne : pks ≠ []) :
    ∃ l, Backfill.set_pairs mc pks excl types op extra = .ok l := by
  cases pks with
  | nil => exact absurd rfl hne
  | cons p r =>
    simp only [Backfill.set_pairs]
    split
    · exact ⟨_, rfl⟩
    · exact ⟨_, rfl⟩

theorem backfill_ts_literal_ok (v : String) (h : Py.strip (Py.replace v "\x27" "\x27\x27") ≠ "") :
    Backfill._ts_literal v = .ok ("TIMESTAMP \x27" ++ Py.strip (Py.replace v "\x27" "\x27\x27") ++ "\x27") := by
  simp [Backfill._ts_literal, h]

theorem backfill_range_cond_ok (txt : String) (o : Option String)
    (ho : Backfill.tsBoundOk o = true) :
    ∃ c, Backfill._range_cond txt o = .ok c := by
  match o with
  | none => exact ⟨[], rfl⟩
  | some v =>
    by_cases hv : v = ""
    · refine ⟨[], ?_⟩
      simp only [Backfill._range_cond, hv]
      rfl
    · have hnb : Py.strip (Py.replace v "\x27" "\x27\x27") ≠ "" := by
        simp only [Backfill.tsBoundOk] at ho
        rcases Bool.or_eq_true_iff.mp ho with h1 | h1
        · exact absurd (by simpa using h1) hv
        · simpa using h1
      refine ⟨[txt ++ ("TIMESTAMP \x27" ++ Py.strip (Py.replace v "\x27" "\x27\x27") ++ "\x27")], ?_⟩
      simp only [Backfill._range_cond]
      rw [if_pos hv, backfill_ts_literal_ok v hnb]
      rfl

theorem backfill_mk_range_ok (types : List (String × String)) (s e : Option String) (col : String)
    (hs : Backfill.tsBoundOk s = true) (he : Backfill.tsBoundOk e = true) :
    ∃ w, Backfill._mk_range_where types s e col = .ok w := by
  obtain ⟨c1, hc1⟩ := backfill_range_cond_ok
    ("TRY_CAST(" ++ Backfill.qident col ++ " AS " ++
      Backfill._normalize_ts_type ((types.lookup (Py.lower col)).getD "timestamp") ++ ") >= ") s hs
  obtain ⟨c2, hc2⟩ := backfill_range_cond_ok
    ("TRY_CAST(" ++ Backfill.qident col ++ " AS " ++
      Backfill._normalize_ts_type ((types.lookup (Py.lower col)).getD "timestamp") ++ ") < ") e he
  have hmain : Backfill._mk_range_where types s e col =
      .ok (if (c1 ++ c2).isEmpty then "1=1" else Py.join " AND " (c1 ++ c2)) := by
    simp only [Backfill._mk_range_where]
    rw [hc1, hc2]
    rfl
  exact ⟨_, hmain⟩

theorem backfill_using_ok (sname : String) (types : List (String × String))
    (all_cols : List String) (u fc fs fe : Option String)
    (hs : Backfill.tsBoundOk fs = true) (he : Backfill.tsBoundOk fe = true) :
    ∃ r, Backfill.using_subquery_b sname types all_cols u fc fs fe = .ok r := by
  unfold Backfill.using_subquery_b
  by_cases h1 : ((Py.truthy fs || Py.truthy fe) &&
      Backfill.boolHasCol (all_cols.map (fun c => Py.lower c)) (Py.orElseStr fc u)) = true
  · obtain ⟨w, hw⟩ := backfill_mk_range_ok types fs fe ((Py.orElseStr fc u).getD "") hs he
    refine ⟨("SELECT * FROM " ++ sname ++ " WHERE " ++ w, []), ?_⟩
    simp only [h1, if_true, hw]
    rfl
  · simp only [h1, if_false, Bool.not_eq_true] at *
    rw [if_neg (by simp [h1])]
    by_cases h2 : (Py.truthy fs || Py.truthy fe) = true
    · rw [if_pos h2]; exact ⟨_, rfl⟩
    · rw [if_neg (by simp [h2])]
      by_cases h3 : Backfill.boolHasCol (all_cols.map (fun c => Py.lower c)) u = true
      · rw [if_pos h3]; exact ⟨_, rfl⟩
      · rw [if_neg (by simp [h3])]; exact ⟨_, rfl⟩

/-- Claim C1 (amended): when the primary-key list is non-empty and,
case-insensitively, a subset of the destination schema's columns — and,
for the backfill variant, any supplied explicit filter bound is
non-blank — composition never raises; whenever some primary-key column
is absent from the destination schema, it raises the configuration
`RuntimeError` (so no statement text is returned and nothing can be
submitted).  The amendment is forced by two degenerate raising inputs
exhibited in the counterexample: an empty primary-key list (vacuously a
subset) reaches the `pk_cols[0]` fallback and raises `IndexError`, and
a whitespace-only filter bound raises `ValueError` in `_ts_literal`. -/
theorem claim_C1 (a : MicroBatch.Args) (b : Backfill.Args) :
    (a.pk_cols ≠ [] →
      (∀ pk ∈ a.pk_cols, (MicroBatch.dest_cols_lower a.prod_types).contains (Py.lower pk) = true) →
      ∃ s, MicroBatch.build_merge_sql a = .ok s) ∧
    ((∃ pk ∈ a.pk_cols, (MicroBatch.dest_cols_lower a.prod_types).contains (Py.lower pk) = false) →
      ∃ pk ∈ a.pk_cols,
        (MicroBatch.dest_cols_lower a.prod_types).contains (Py.lower pk) = false ∧
        MicroBatch.build_merge_sql a =
          .error (.runtimeError ("Primary key \x27" ++ pk ++ "\x27 not found in destination schema."))) ∧
    (b.pk_cols ≠ [] →
      (∀ pk ∈ b.pk_cols, (Backfill.dest_cols_lower b.dest_types).contains (Py.lower pk) = true) →
      Backfill.tsBoundOk b.filter_start_ts = true →
      Backfill.tsBoundOk b.filter_end_ts = true →
      ∃ s, Backfill.build_merge_sql b = .ok s) ∧
    ((∃ pk ∈ b.pk_cols, (Backfill.dest_cols_lower b.dest_types).contains (Py.lower pk) = false) →
      ∃ pk ∈ b.pk_cols,
        (Backfill.dest_cols_lower b.dest_types).contains (Py.lower pk) = false ∧
        Backfill.build_merge_sql b =
          .error (.runtimeError ("Primary key \x27" ++ pk ++ "\x27 not found in destination schema."))) := by
  refine ⟨?_, ?_, ?_, ?_⟩
  · intro hne hsub
    obtain ⟨l, hl⟩ := micro_on_parts_ok a.pk_cols a.prod_types a.op_literal hsub
    obtain ⟨sp, hsp⟩ := micro_set_pairs_ok
      (MicroBatch.merged_cols a.all_cols (MicroBatch.dest_cols_lower a.prod_types))
      a.pk_cols a.exclude_update_cols a.prod_types a.op_literal a.extra_set_assignments hne
    cases hb : MicroBatch.build_merge_sql a with
    | ok s => exact ⟨s, rfl⟩
    | error e =>
      simp only [MicroBatch.build_merge_sql, hl, hsp] at hb
      exact Except.noConfusion hb
  · intro h
    obtain ⟨pk, hpk, hpf, heq⟩ := micro_on_parts_err a.pk_cols a.prod_types a.op_literal h
    exact ⟨pk, hpk, hpf, by simp only [MicroBatch.build_merge_sql, heq]⟩
  · intro hne hsub hts1 hts2
    obtain ⟨l, hl⟩ := backfill_on_parts_ok b.pk_cols b.dest_types b.op_literal hsub
    obtain ⟨r, hr⟩ := backfill_using_ok
      (Backfill.fqname b.source_catalog b.source_db b.source_table) b.dest_types b.all_cols
      b.updated_at_col b.filter_col b.filter_start_ts b.filter_end_ts hts1 hts2
    obtain ⟨sp, hsp⟩ := backfill_set_pairs_ok
      (Backfill.merged_cols b.all_cols (Backfill.dest_cols_lower b.dest_types))
      b.pk_cols b.exclude_update_cols b.dest_types b.op_literal b.extra_set_assignments hne
    cases hb : Backfill.build_merge_sql b with
    | ok s => exact ⟨s, rfl⟩
    | error e =>
      simp only [Backfill.build_merge_sql, hl, hr, hsp] at hb
      exact Except.noConfusion hb
  · intro h
    obtain ⟨pk, hpk, hpf, heq⟩ := backfill_on_parts_err b.pk_cols b.dest_types b.op_literal h
    exact ⟨pk, hpk, hpf, by simp only [Backfill.build_merge_sql, heq]⟩

set_option maxHeartbeats 1000000 in
/-- Claim C2: in both composers, when the designated recency column is
truthy and exists (lower-cased) in the destination schema, the
`WHEN MATCHED` branch carries the guard requiring the source recency
value to be strictly greater than the destination one, both sides
coalesced to the epoch sentinel `TIMESTAMP '1970-01-01 00:00:00'`;
when the column is absent (or none is designated), the guard is the
empty string.  The third conjunct of each half places the guard text
inside every successfully composed statement. -/
theorem claim_C2 (a : MicroBatch.Args) (b : Backfill.Args) :
    (∀ u, a.updated_at_col = some u → u ≠ "" →
      (MicroBatch.dest_cols_lower a.prod_types).contains (Py.lower u) = true →
      MicroBatch.matched_guard a.updated_at_col a.prod_types =
        "\n      AND COALESCE(\n            TRY_CAST(s." ++ MicroBatch.qident u ++ " AS " ++
          MicroBatch._normalize_ts_type ((MicroBatch.typeGet a.prod_types (Py.lower u)).getD "timestamp") ++
          "),\n            TIMESTAMP \x271970-01-01 00:00:00\x27\n          ) >\n          COALESCE(\n            TRY_CAST(t." ++
          MicroBatch.qident u ++ " AS " ++
          MicroBatch._normalize_ts_type ((MicroBatch.typeGet a.prod_types (Py.lower u)).getD "timestamp") ++
          "),\n            TIMESTAMP \x271970-01-01 00:00:00\x27\n          )\n    ") ∧
    ((∀ u, a.updated_at_col = some u →
        u = "" ∨ (MicroBatch.dest_cols_lower a.prod_types).contains (Py.lower u) = false) →
      MicroBatch.matched_guard a.updated_at_col a.prod_types = "") ∧
    (∀ sql, MicroBatch.build_merge_sql a = .ok sql →
      ∃ p q, sql = p ++ (MicroBatch.matched_guard a.updated_at_col a.prod_types ++ q)) ∧
    (∀ u, b.updated_at_col = some u → u ≠ "" →
      (Backfill.dest_cols_lower b.dest_types).contains (Py.lower u) = true →
      Backfill.matched_guard b.updated_at_col b.dest_types =
        "\n      AND COALESCE(\n            TRY_CAST(s." ++ Backfill.qident u ++ " AS " ++
          Backfill._normalize_ts_type ((b.dest_types.lookup (Py.lower u)).getD "timestamp") ++
          "),\n            TIMESTAMP \x271970-01-01 00:00:00\x27\n          ) >\n          COALESCE(\n            TRY_CAST(t." ++
          Backfill.qident u ++ " AS " ++
          Backfill._normalize_ts_type ((b.dest_types.lookup (Py.lower u)).getD "timestamp") ++
          "),\n            TIMESTAMP \x271970-01-01 00:00:00\x27\n          )\n    ") ∧
    ((∀ u, b.updated_at_col = some u →
        u = "" ∨ (Backfill.dest_cols_lower b.dest_types).contains (Py.lower u) = false) →
      Backfill.matched_guard b.updated_at_col b.dest_types = "") ∧
    (∀ sql, Backfill.build_merge_sql b = .ok sql →
      ∃ p q, sql = p ++ (Backfill.matched_guard b.updated_at_col b.dest_types ++ q)) := by
  refine ⟨?_, ?_, ?_, ?_, ?_, ?_⟩
  · intro u hu hne hcon
    rw [hu]
    simp only [MicroBatch.matched_guard]
    rw [if_neg hne, if_pos hcon]
  · intro h
    cases hu : a.updated_at_col with
    | none => rfl
    | some u =>
      rcases h u hu with he | hcf
      · simp only [MicroBatch.matched_guard]
        rw [if_pos he]
      · simp only [MicroBatch.matched_guard]
        by_cases he : u = ""
        · rw [if_pos he]
        · rw [if_neg he, if_neg (fun hc => Bool.false_ne_true (hcf ▸ hc))]
  · intro sql hb
    cases hon : MicroBatch.on_parts a.pk_cols a.prod_types a.op_literal with
    | error e => rw [MicroBatch.build_merge_sql, hon] at hb; exact Except.noConfusion hb
    | ok onp =>
      cases hsp : MicroBatch.set_pairs
          (MicroBatch.merged_cols a.all_cols (MicroBatch.dest_cols_lower a.prod_types))
          a.pk_cols a.exclude_update_cols a.prod_types a.op_literal a.extra_set_assignments with
      | error e =>
        simp only [MicroBatch.build_merge_sql, hon, hsp] at hb
        exact Except.noConfusion hb
      | ok sp =>
        simp only [MicroBatch.build_merge_sql, hon, hsp, Except.ok.injEq] at hb
        rw [← hb]
        exact strip_chain_factor _ _ _ _ _ _ _ _ _ _ _ _ _ _ _
          ⟨'M', by decide, by decide⟩ ⟨'T', by decide, by decide⟩
  · intro u hu hne hcon
    rw [hu]
    simp only [Backfill.matched_guard]
    rw [if_neg hne, if_pos hcon]
  · intro h
    cases hu : b.updated_at_col with
    | none => rfl
    | some u =>
      rcases h u hu with he | hcf
      · simp only [Backfill.matched_guard]
        rw [if_pos he]
      · simp only [Backfill.matched_guard]
        by_cases he : u = ""
        · rw [if_pos he]
        · rw [if_neg he, if_neg (fun hc => Bool.false_ne_true (hcf ▸ hc))]
  · intro sql hb
    cases hon : Backfill.on_parts b.pk_cols b.dest_types b.op_literal with
    | error e => rw [Backfill.build_merge_sql, hon] at hb; exact Except.noConfusion hb
    | ok onp =>
      cases husq : Backfill.using_subquery_b
          (Backfill.fqname b.source_catalog b.source_db b.source_table) b.dest_types b.all_cols
          b.updated_at_col b.filter_col b.filter_start_ts b.filter_end_ts with
      | error e =>
        simp only [Backfill.build_merge_sql, hon, husq] at hb
        exact Except.noConfusion hb
      | ok usqw =>
        cases hsp : Backfill.set_pairs
            (Backfill.merged_cols b.all_cols (Backfill.dest_cols_lower b.dest_types))
            b.pk_cols b.exclude_update_cols b.dest_types b.op_literal b.extra_set_assignments with
        | error e =>
          simp only [Backfill.build_merge_sql, hon, husq, hsp] at hb
          exact Except.noConfusion hb
        | ok sp =>
          simp only [Backfill.build_merge_sql, hon, husq, hsp, Except.ok.injEq] at hb
          rw [← hb]
          exact strip_chain_factor _ _ _ _ _ _ _ _ _ _ _ _ _ _ _
            ⟨'M', by decide, by decide⟩ ⟨'T', by decide, by decide⟩

/-- Claim C3: with dedup disabled the `USING` subquery selects all
source rows unmodified; with dedup enabled it is the `ROW_NUMBER()`
subquery partitioned by the primary keys, keeping exactly the
`rn = 1` rows, ordered descending by — in precedence order — the
recency key (the recency column coalesced with `created_at` when both
occur among the source columns, the one that exists when only one
does), then the caller tie-breakers in order, then the primary keys.
The third conjunct shows the source's ranking-key list follows exactly
that precedence (in particular, the defensive primary-key fallback for
an empty key list never changes the clause, as shown by the second
conjunct using the plain join). -/
theorem claim_C3 (sname : String) (pk_cols all_cols ic tiebreakers : List String)
    (u : Option String) :
    MicroBatch.using_subquery sname pk_cols all_cols ic tiebreakers u false =
      "SELECT * FROM " ++ sname ++ " s" ∧
    MicroBatch.using_subquery sname pk_cols all_cols ic tiebreakers u true =
      Py.strip ("\n            WITH src AS (\n              SELECT\n                s.*,\n                ROW_NUMBER() OVER (\n                  PARTITION BY " ++
        Py.join ", " (pk_cols.map (fun pk => "s." ++ MicroBatch.qident pk)) ++
        "\n                  ORDER BY " ++
        Py.join ", " (MicroBatch.dedup_order_parts u all_cols tiebreakers pk_cols) ++
        "\n                ) AS rn\n              FROM " ++ sname ++
        " s\n            )\n            SELECT " ++
        Py.join ", "
          ((ic.filter (fun c => !(Py.lower c == "__op" || Py.lower c == "__ts_ms"))).map
            (fun c => "src." ++ MicroBatch.qident c)) ++
        "\n            FROM src\n            WHERE rn = 1\n        ") ∧
    MicroBatch.dedup_order_parts u all_cols tiebreakers pk_cols =
      (if Py.truthy u && all_cols.any (fun c => Py.lower c == Py.lower (u.getD "")) then
        (if all_cols.any (fun c => Py.lower c == "created_at") then
          ["COALESCE(s." ++ MicroBatch.qident (u.getD "") ++ ", s.\"created_at\") DESC"]
        else ["s." ++ MicroBatch.qident (u.getD "") ++ " DESC"])
      else if all_cols.any (fun c => Py.lower c == "created_at") then ["s.\"created_at\" DESC"]
      else []) ++
      tiebreakers.map (fun tb => "s." ++ MicroBatch.qident tb ++ " DESC") ++
      pk_cols.map (fun pk => "s." ++ MicroBatch.qident pk ++ " DESC") := by
  have hsymm : ∀ x y : String, (x == y) = (y == x) := by
    intro x y
    by_cases h : x = y
    · simp [h]
    · simp [beq_eq_false_iff_ne.mpr h, beq_eq_false_iff_ne.mpr (Ne.symm h)]
  have hany : (all_cols.any fun c => Py.lower (u.getD "") == Py.lower c) =
      (all_cols.any fun c => Py.lower c == Py.lower (u.getD "")) := by
    rw [show (fun c => Py.lower (u.getD "") == Py.lower c) =
      (fun c => Py.lower c == Py.lower (u.getD "")) from funext fun c => hsymm _ _]
  refine ⟨rfl, ?_, ?_⟩
  · have horder :
        (if !(MicroBatch.dedup_order_parts u all_cols tiebreakers pk_cols).isEmpty then
          Py.join ", " (MicroBatch.dedup_order_parts u all_cols tiebreakers pk_cols)
        else Py.join ", " (pk_cols.map (fun pk => "s." ++ MicroBatch.qident pk ++ " DESC"))) =
        Py.join ", " (MicroBatch.dedup_order_parts u all_cols tiebreakers pk_cols) := by
      by_cases hp : (MicroBatch.dedup_order_parts u all_cols tiebreakers pk_cols).isEmpty = true
      · have hnil : MicroBatch.dedup_order_parts u all_cols tiebreakers pk_cols = [] := by
          simpa using hp
        have hpk : pk_cols = [] := by
          have h2 := hnil
          simp only [MicroBatch.dedup_order_parts] at h2
          rcases List.append_eq_nil.mp h2 with ⟨-, h3⟩
          exact List.map_eq_nil_iff.mp h3
        rw [hnil, hpk]
        rfl
      · rw [if_pos (by simp [hp])]
    simp only [MicroBatch.using_subquery, if_true]
    rw [horder]
  · simp only [MicroBatch.dedup_order_parts, hany]
    by_cases hA : (Py.truthy u && all_cols.any fun c => Py.lower c == Py.lower (u.getD "")) = true <;>
      by_cases hB : (all_cols.any fun c => Py.lower c == "created_at") = true <;>
      simp [hA, hB]

/-- `_range_cond` at a truthy, non-blank bound. -/
theorem backfill_range_cond_some (txt v : String) (hv : v ≠ "")
    (hnb : Py.strip (Py.replace v "\x27" "\x27\x27") ≠ "") :
    Backfill._range_cond txt (some v) =
      .ok [txt ++ ("TIMESTAMP \x27" ++ Py.strip (Py.replace v "\x27" "\x27\x27") ++ "\x27")] := by
  simp only [Backfill._range_cond]
  rw [if_pos hv, backfill_ts_literal_ok v hnb]
  rfl

/-- Claim C5: the backfill `USING` projection applies exactly one of,
in priority order: (a) an explicit half-open `[start, end)` filter on
the effective filter column (the caller's `filter_col`, defaulting to
the recency column) when a bound is given and that column occurs in
the source columns; (b) no filter but exactly one warning when a bound
is given and the column is absent; (c) the default trailing 30-day
lookback on the recency column when no bound is given and the recency
column occurs in the source; (d) otherwise a full scan with no filter
and no warning. -/
theorem claim_C5 (sname : String) (types : List (String × String)) (all_cols : List String)
    (u fc fs fe : Option String) :
    (∀ vs ve col, fs = some vs → fe = some ve → vs ≠ "" → ve ≠ "" →
      Py.strip (Py.replace vs "\x27" "\x27\x27") ≠ "" →
      Py.strip (Py.replace ve "\x27" "\x27\x27") ≠ "" →
      Py.orElseStr fc u = some col → col ≠ "" →
      (all_cols.map (fun c => Py.lower c)).contains (Py.lower col) = true →
      Backfill.using_subquery_b sname types all_cols u fc fs fe =
        .ok ("SELECT * FROM " ++ sname ++ " WHERE " ++
          ("TRY_CAST(" ++ Backfill.qident col ++ " AS " ++
            Backfill._normalize_ts_type ((types.lookup (Py.lower col)).getD "timestamp") ++
            ") >= " ++
            ("TIMESTAMP \x27" ++ Py.strip (Py.replace vs "\x27" "\x27\x27") ++ "\x27") ++ " AND " ++
            ("TRY_CAST(" ++ Backfill.qident col ++ " AS " ++
              Backfill._normalize_ts_type ((types.lookup (Py.lower col)).getD "timestamp") ++
              ") < " ++
              ("TIMESTAMP \x27" ++ Py.strip (Py.replace ve "\x27" "\x27\x27") ++ "\x27"))), [])) ∧
    ((Py.truthy fs || Py.truthy fe) = true →
      Backfill.boolHasCol (all_cols.map (fun c => Py.lower c)) (Py.orElseStr fc u) = false →
      Backfill.using_subquery_b sname types all_cols u fc fs fe =
        .ok ("SELECT * FROM " ++ sname,
          ["[WARN] Filter column \x27" ++ Py.showOpt (Py.orElseStr fc u) ++
            "\x27 not found in source; ignoring start/end filter."])) ∧
    (Py.truthy fs = false → Py.truthy fe = false →
      Backfill.boolHasCol (all_cols.map (fun c => Py.lower c)) u = true →
      ∀ uc, u = some uc →
      Backfill.using_subquery_b sname types all_cols u fc fs fe =
        .ok (Py.strip ("\n            SELECT *\n            FROM " ++ sname ++
          "\n            WHERE COALESCE(\n                    TRY_CAST(" ++ Backfill.qident uc ++
          " AS " ++ Backfill._normalize_ts_type ((types.lookup (Py.lower uc)).getD "timestamp") ++
          "),\n                    TIMESTAMP \x271970-01-01 00:00:00\x27\n                  ) >\n                  CAST(date_add(\x27day\x27, -30, current_date) AS timestamp)\n            "), [])) ∧
    (Py.truthy fs = false → Py.truthy fe = false →
      Backfill.boolHasCol (all_cols.map (fun c => Py.lower c)) u = false →
      Backfill.using_subquery_b sname types all_cols u fc fs fe =
        .ok ("SELECT * FROM " ++ sname, [])) := by
  refine ⟨?_, ?_, ?_, ?_⟩
  · intro vs ve col hfs hfe hvs hve hnb1 hnb2 heff hcol hcolin
    have h2 : Backfill.boolHasCol (all_cols.map (fun c => Py.lower c)) (some col) = true := by
      simp only [Backfill.boolHasCol]
      rw [hcolin]
      simp [hcol]
    have hc1 : ((Py.truthy fs || Py.truthy fe) &&
        Backfill.boolHasCol (all_cols.map (fun c => Py.lower c)) (Py.orElseStr fc u)) = true := by
      rw [hfs, heff, h2]
      simp [Py.truthy, hvs]
    have hmk : Backfill._mk_range_where types fs fe col =
        .ok ("TRY_CAST(" ++ Backfill.qident col ++ " AS " ++
          Backfill._normalize_ts_type ((types.lookup (Py.lower col)).getD "timestamp") ++
          ") >= " ++
          ("TIMESTAMP \x27" ++ Py.strip (Py.replace vs "\x27" "\x27\x27") ++ "\x27") ++ " AND " ++
          ("TRY_CAST(" ++ Backfill.qident col ++ " AS " ++
            Backfill._normalize_ts_type ((types.lookup (Py.lower col)).getD "timestamp") ++
            ") < " ++
            ("TIMESTAMP \x27" ++ Py.strip (Py.replace ve "\x27" "\x27\x27") ++ "\x27"))) := by
      rw [hfs, hfe]
      simp only [Backfill._mk_range_where]
      rw [backfill_range_cond_some _ vs hvs hnb1, backfill_range_cond_some _ ve hve hnb2]
      rfl
    simp only [Backfill.using_subquery_b]
    rw [if_pos hc1, heff]
    show (do
      let w ← Backfill._mk_range_where types fs fe ((some col).getD "")
      pure ("SELECT * FROM " ++ sname ++ " WHERE " ++ w, [])) = _
    rw [show (some col).getD "" = col from rfl, hmk]
    rfl
  · intro hb hcol
    have hc1 : ((Py.truthy fs || Py.truthy fe) &&
        Backfill.boolHasCol (all_cols.map (fun c => Py.lower c)) (Py.orElseStr fc u)) = false := by
      simp [hcol]
    simp only [Backfill.using_subquery_b]
    rw [if_neg (by simp [hc1]), if_pos hb]
    rfl
  · intro hfs hfe hhas uc huc
    simp only [Backfill.using_subquery_b]
    rw [if_neg (by simp [hfs, hfe]), if_neg (by simp [hfs, hfe]), if_pos hhas, huc]
    rfl
  · intro hfs hfe hhas
    simp only [Backfill.using_subquery_b]
    rw [if_neg (by simp [hfs, hfe]), if_neg (by simp [hfs, hfe]), if_neg (by simp [hhas])]
    rfl

/-- Concrete instantiation of C5, one input per branch. -/
theorem claim_C5_witness :
    (Backfill.using_subquery_b "\"d\".\"s\"" [("created_at", "timestamp")] ["id", "created_at"]
        (some "updated_at") (some "created_at") (some "2025-08-30") (some "2025-09-01") =
      .ok ("SELECT * FROM \"d\".\"s\" WHERE " ++
        ("TRY_CAST(" ++ Backfill.qident "created_at" ++ " AS " ++
          Backfill._normalize_ts_type
            (([("created_at", "timestamp")].lookup (Py.lower "created_at")).getD "timestamp") ++
          ") >= " ++
          ("TIMESTAMP \x27" ++ Py.strip (Py.replace "2025-08-30" "\x27" "\x27\x27") ++ "\x27") ++
          " AND " ++
          ("TRY_CAST(" ++ Backfill.qident "created_at" ++ " AS " ++
            Backfill._normalize_ts_type
              (([("created_at", "timestamp")].lookup (Py.lower "created_at")).getD "timestamp") ++
            ") < " ++
            ("TIMESTAMP \x27" ++ Py.strip (Py.replace "2025-09-01" "\x27" "\x27\x27") ++ "\x27"))),
        [])) ∧
    (Backfill.using_subquery_b "\"d\".\"s\"" [] ["id"] (some "updated_at") none
        (some "2025-08-30") (some "2025-09-01") =
      .ok ("SELECT * FROM \"d\".\"s\"",
        ["[WARN] Filter column \x27updated_at\x27 not found in source; ignoring start/end filter."])) ∧
    (Backfill.using_subquery_b "\"d\".\"s\"" [("updated_at", "timestamp(6)")] ["id", "updated_at"]
        (some "updated_at") none none none =
      .ok (Py.strip ("\n            SELECT *\n            FROM \"d\".\"s\"" ++
        "\n            WHERE COALESCE(\n                    TRY_CAST(" ++
        Backfill.qident "updated_at" ++ " AS " ++
        Backfill._normalize_ts_type
          (([("updated_at", "timestamp(6)")].lookup (Py.lower "updated_at")).getD "timestamp") ++
        "),\n                    TIMESTAMP \x271970-01-01 00:00:00\x27\n                  ) >\n                  CAST(date_add(\x27day\x27, -30, current_date) AS timestamp)\n            "),
        [])) ∧
    (Backfill.using_subquery_b "\"d\".\"s\"" [] ["id"] none none none none =
      .ok ("SELECT * FROM \"d\".\"s\"", [])) := by
  refine ⟨?_, ?_, ?_, ?_⟩
  · exact (claim_C5 "\"d\".\"s\"" [("created_at", "timestamp")] ["id", "created_at"]
      (some "updated_at") (some "created_at") (some "2025-08-30") (some "2025-09-01")).1
      "2025-08-30" "2025-09-01" "created_at" rfl rfl (by decide) (by decide) (by decide)
      (by decide) (by decide) (by decide) (by decide)
  · exact (claim_C5 "\"d\".\"s\"" [] ["id"] (some "updated_at") none
      (some "2025-08-30") (some "2025-09-01")).2.1 (by decide) (by decide)
  · exact (claim_C5 "\"d\".\"s\"" [("updated_at", "timestamp(6)")] ["id", "updated_at"]
      (some "updated_at") none none none).2.2.1 (by decide) (by decide) (by decide)
      "updated_at" rfl
  · exact (claim_C5 "\"d\".\"s\"" [] ["id"] none none none none).2.2.2
      (by decide) (by decide) (by decide)

theorem micro_merged_all_dest (all destKeys : List String) :
    ∀ c ∈ MicroBatch.merged_cols all destKeys, destKeys.contains (Py.lower c) = true := by
  intro c hc
  have hop : Py.lower "__op" = "__op" := by decide
  have hts : Py.lower "__ts_ms" = "__ts_ms" := by decide
  simp only [MicroBatch.merged_cols] at hc
  by_cases h1 : (destKeys.contains "__op" &&
      !(List.filter (fun c => destKeys.contains (Py.lower c)) all).contains "__op") = true
  · rw [if_pos h1] at hc
    by_cases h2 : (destKeys.contains "__ts_ms" &&
        !(List.filter (fun c => destKeys.contains (Py.lower c)) all ++ ["__op"]).contains "__ts_ms") = true
    · rw [if_pos h2] at hc
      rcases List.mem_append.mp hc with hc1 | hc2
      · rcases List.mem_append.mp hc1 with hc3 | hc4
        · exact (List.mem_filter.mp hc3).2
        · have hce : c = "__op" := by simpa using hc4
          subst hce
          rw [hop]
          exact (Bool.and_eq_true_iff.mp h1).1
      · have hce : c = "__ts_ms" := by simpa using hc2
        subst hce
        rw [hts]
        exact (Bool.and_eq_true_iff.mp h2).1
    · rw [if_neg h2] at hc
      rcases List.mem_append.mp hc with hc3 | hc4
      · exact (List.mem_filter.mp hc3).2
      · have hce : c = "__op" := by simpa using hc4
        subst hce
        rw [hop]
        exact (Bool.and_eq_true_iff.mp h1).1
  · rw [if_neg h1] at hc
    by_cases h2 : (destKeys.contains "__ts_ms" &&
        !(List.filter (fun c => destKeys.contains (Py.lower c)) all).contains "__ts_ms") = true
    · rw [if_pos h2] at hc
      rcases List.mem_append.mp hc with hc3 | hc4
      · exact (List.mem_filter.mp hc3).2
      · have hce : c = "__ts_ms" := by simpa using hc4
        subst hce
        rw [hts]
        exact (Bool.and_eq_true_iff.mp h2).1
    · rw [if_neg h2] at hc
      exact (List.mem_filter.mp hc).2

/-- The two composers build the reconciled column list identically. -/
theorem backfill_merged_eq : Backfill.merged_cols = MicroBatch.merged_cols := rfl

/-- Claim C7: with no caller-supplied extra assignments, the
`UPDATE SET` pair list of either composer assigns the compiled cast
expression to exactly the reconciled columns that are neither
primary-key columns nor caller-excluded columns (their membership in
the destination is automatic and adds no further restriction); when no
such column remains, it is the single trivial self-assignment of the
first primary key — in both cases the list is non-empty. -/
theorem claim_C7 (a : MicroBatch.Args) (b : Backfill.Args)
    (hpkA : a.pk_cols ≠ []) (hexA : a.extra_set_assignments = [])
    (hpkB : b.pk_cols ≠ []) (hexB : b.extra_set_assignments = []) :
    (∃ sp, MicroBatch.set_pairs
        (MicroBatch.merged_cols a.all_cols (MicroBatch.dest_cols_lower a.prod_types))
        a.pk_cols a.exclude_update_cols a.prod_types a.op_literal a.extra_set_assignments =
        .ok sp ∧ sp ≠ [] ∧
      sp = (if ((MicroBatch.merged_cols a.all_cols (MicroBatch.dest_cols_lower a.prod_types)).filter
            (fun c => !a.pk_cols.contains c && !a.exclude_update_cols.contains c)).isEmpty then
          [MicroBatch.qident (a.pk_cols.headD "") ++ " = t." ++
            MicroBatch.qident (a.pk_cols.headD "")]
        else
          ((MicroBatch.merged_cols a.all_cols (MicroBatch.dest_cols_lower a.prod_types)).filter
            (fun c => !a.pk_cols.contains c && !a.exclude_update_cols.contains c)).map
            (fun c => MicroBatch.qident c ++ " = " ++
              MicroBatch._cast_expr_for_col c (MicroBatch.typeGet a.prod_types (Py.lower c))
                a.op_literal))) ∧
    (∃ sp, Backfill.set_pairs
        (Backfill.merged_cols b.all_cols (Backfill.dest_cols_lower b.dest_types))
        b.pk_cols b.exclude_update_cols b.dest_types b.op_literal b.extra_set_assignments =
        .ok sp ∧ sp ≠ [] ∧
      sp = (if ((Backfill.merged_cols b.all_cols (Backfill.dest_cols_lower b.dest_types)).filter
            (fun c => !b.pk_cols.contains c && !b.exclude_update_cols.contains c)).isEmpty then
          [Backfill.qident (b.pk_cols.headD "") ++ " = t." ++
            Backfill.qident (b.pk_cols.headD "")]
        else
          ((Backfill.merged_cols b.all_cols (Backfill.dest_cols_lower b.dest_types)).filter
            (fun c => !b.pk_cols.contains c && !b.exclude_update_cols.contains c)).map
            (fun c => Backfill.qident c ++ " = " ++
              Backfill._cast_expr_for_col c (b.dest_types.lookup (Py.lower c)) b.op_literal))) := by
  constructor
  · rcases hcons : a.pk_cols with - | ⟨p, r⟩
    · exact absurd hcons hpkA
    · have hfeq : (MicroBatch.merged_cols a.all_cols (MicroBatch.dest_cols_lower a.prod_types)).filter
          (fun c => (MicroBatch.dest_cols_lower a.prod_types).contains (Py.lower c) &&
            !(p :: r).contains c && !a.exclude_update_cols.contains c) =
          (MicroBatch.merged_cols a.all_cols (MicroBatch.dest_cols_lower a.prod_types)).filter
          (fun c => !(p :: r).contains c && !a.exclude_update_cols.contains c) := by
        apply List.filter_congr
        intro c hc
        rw [micro_merged_all_dest _ _ c hc]
        simp
      by_cases hemp : ((MicroBatch.merged_cols a.all_cols
          (MicroBatch.dest_cols_lower a.prod_types)).filter
          (fun c => !(p :: r).contains c && !a.exclude_update_cols.contains c)).isEmpty = true
      · have hnil := List.isEmpty_iff.mp hemp
        refine ⟨[MicroBatch.qident p ++ " = t." ++ MicroBatch.qident p], ?_, by simp, by rw [hnil]; rfl⟩
        simp only [MicroBatch.set_pairs, MicroBatch.updatable_cols, hexA, List.filterMap_nil,
          List.append_nil, hfeq, hnil, List.map_nil, List.isEmpty_nil, eq_self_iff_true, if_true]
      · have hne := hemp
        rw [List.isEmpty_iff] at hne
        have hmapne : (((MicroBatch.merged_cols a.all_cols
            (MicroBatch.dest_cols_lower a.prod_types)).filter
            (fun c => !(p :: r).contains c && !a.exclude_update_cols.contains c)).map
            (fun c => MicroBatch.qident c ++ " = " ++
              MicroBatch._cast_expr_for_col c (MicroBatch.typeGet a.prod_types (Py.lower c))
                a.op_literal)) ≠ [] := by
          intro hmn
          exact hne (List.map_eq_nil_iff.mp hmn)
        have hfalse : ((MicroBatch.merged_cols a.all_cols
            (MicroBatch.dest_cols_lower a.prod_types)).filter
            (fun c => !(p :: r).contains c && !a.exclude_update_cols.contains c)).isEmpty = false := by
          rwa [Bool.not_eq_true] at hemp
        refine ⟨_, ?_, hmapne, by rw [hfalse]; rfl⟩
        simp only [MicroBatch.set_pairs, MicroBatch.updatable_cols, hexA, List.filterMap_nil,
          List.append_nil, hfeq]
        rw [if_neg (by simpa using hmapne)]
  · rcases hcons : b.pk_cols with - | ⟨p, r⟩
    · exact absurd hcons hpkB
    · have hfeq : (Backfill.merged_cols b.all_cols (Backfill.dest_cols_lower b.dest_types)).filter
          (fun c => (Backfill.dest_cols_lower b.dest_types).contains (Py.lower c) &&
            !(p :: r).contains c && !b.exclude_update_cols.contains c) =
          (Backfill.merged_cols b.all_cols (Backfill.dest_cols_lower b.dest_types)).filter
          (fun c => !(p :: r).contains c && !b.exclude_update_cols.contains c) := by
        apply List.filter_congr
        intro c hc
        rw [backfill_merged_eq] at hc
        rw [micro_merged_all_dest _ _ c hc]
        simp
      by_cases hemp : ((Backfill.merged_cols b.all_cols
          (Backfill.dest_cols_lower b.dest_types)).filter
          (fun c => !(p :: r).contains c && !b.exclude_update_cols.contains c)).isEmpty = true
      · have hnil := List.isEmpty_iff.mp hemp
        refine ⟨[Backfill.qident p ++ " = t." ++ Backfill.qident p], ?_, by simp, by rw [hnil]; rfl⟩
        simp only [Backfill.set_pairs, Backfill.updatable_cols, hexB, List.filterMap_nil,
          List.append_nil, hfeq, hnil, List.map_nil, List.isEmpty_nil, eq_self_iff_true, if_true]
      · have hne := hemp
        rw [List.isEmpty_iff] at hne
        have hmapne : (((Backfill.merged_cols b.all_cols
            (Backfill.dest_cols_lower b.dest_types)).filter
            (fun c => !(p :: r).contains c && !b.exclude_update_cols.contains c)).map
            (fun c => Backfill.qident c ++ " = " ++
              Backfill._cast_expr_for_col c (b.dest_types.lookup (Py.lower c)) b.op_literal)) ≠ [] := by
          intro hmn
          exact hne (List.map_eq_nil_iff.mp hmn)
        have hfalse : ((Backfill.merged_cols b.all_cols
            (Backfill.dest_cols_lower b.dest_types)).filter
            (fun c => !(p :: r).contains c && !b.exclude_update_cols.contains c)).isEmpty = false := by
          rwa [Bool.not_eq_true] at hemp
        refine ⟨_, ?_, hmapne, by rw [hfalse]; rfl⟩
        simp only [Backfill.set_pairs, Backfill.updatable_cols, hexB, List.filterMap_nil,
          List.append_nil, hfeq]
        rw [if_neg (by simpa using hmapne)]

theorem lookup_append (a : String) (l1 l2 : List (String × String)) :
    (l1 ++ l2).lookup a = ((l1.lookup a).orElse fun _ => l2.lookup a) := by
  induction l1 with
  | nil => cases h : l2.lookup a <;> simp [List.lookup, Option.orElse, h]
  | cons p l1 ih =>
    obtain ⟨k, v⟩ := p
    cases hk : a == k <;> simp [List.lookup, hk, ih, Option.orElse]

theorem lookup_eq_none_of (a : String) (l : List (String × String))
    (h : ∀ p ∈ l, (a == p.1) = false) : l.lookup a = none := by
  induction l with
  | nil => rfl
  | cons p l ih =>
    obtain ⟨k, v⟩ := p
    have hk := h (k, v) (List.mem_cons_self _ _)
    simp only at hk
    simp [List.lookup, hk, ih (fun q hq => h q (List.mem_cons_of_mem _ hq))]

theorem renameWith_cons_ne (d e c : String) (m : List (String × String)) (hne : c ≠ d) :
    MicroBatch.renameWith ((d, e) :: m) c = MicroBatch.renameWith m c := by
  simp only [MicroBatch.renameWith, List.reverse_cons]
  rw [lookup_append]
  have h1 : ([((d, e) : String × String)]).lookup c = none := by
    simp [List.lookup, beq_eq_false_iff_ne.mpr hne]
  rw [h1]
  cases m.reverse.lookup c <;> rfl

theorem renameWith_of_not_key (c : String) (m : List (String × String))
    (h : ∀ p ∈ m, p.1 ≠ c) : MicroBatch.renameWith m c = c := by
  simp only [MicroBatch.renameWith]
  rw [lookup_eq_none_of c m.reverse
    (fun p hp => beq_eq_false_iff_ne.mpr (Ne.symm (h p (List.mem_reverse.mp hp))))]

theorem renameWith_cons_self (d e : String) (m : List (String × String))
    (hd : ∀ p ∈ m, p.1 ≠ d) :
    MicroBatch.renameWith ((d, e) :: m) d = e := by
  simp only [MicroBatch.renameWith, List.reverse_cons]
  rw [lookup_append]
  rw [lookup_eq_none_of d m.reverse
    (fun p hp => beq_eq_false_iff_ne.mpr (Ne.symm (hd p (List.mem_reverse.mp hp))))]
  simp [List.lookup, Option.orElse]

/-- Positional rename: mapping a nodup incoming list through the
later-wins dict built from zipping it with the target list renames it
to the first `df.length` targets. -/
theorem map_renameWith_zip (df ddl : List String) (hlen : df.length ≤ ddl.length)
    (hnd : df.Nodup) :
    df.map (fun c => MicroBatch.renameWith (df.zip ddl) c) = ddl.take df.length := by
  induction df generalizing ddl with
  | nil => simp
  | cons d df ih =>
    cases ddl with
    | nil => simp at hlen
    | cons e ddl =>
      obtain ⟨hd, hnd'⟩ := List.nodup_cons.mp hnd
      have hkeys : ∀ p ∈ df.zip ddl, p.1 ≠ d := by
        intro p hp hpd
        exact hd (hpd ▸ (List.of_mem_zip hp).1)
      simp only [List.zip_cons_cons, List.map_cons, List.length_cons, List.take_succ_cons]
      congr 1
      · exact renameWith_cons_self d e (df.zip ddl) hkeys
      · rw [show df.map (fun c => MicroBatch.renameWith ((d, e) :: df.zip ddl) c) =
            df.map (fun c => MicroBatch.renameWith (df.zip ddl) c) from
          List.map_congr_left (fun c hc =>
            renameWith_cons_ne d e c (df.zip ddl) (fun hcd => hd (hcd ▸ hc)))]
        exact ih ddl (by simpa using hlen) hnd'

set_option maxRecDepth 8000 in
/-- Claim C6 counterexamples: (1) tail alignment (four incoming
columns whose names do not cover the three targets) emits NO warning —
the length-mismatch warning of that branch is unreachable; (2) on a
count match with a duplicated incoming name, the dict-based rename is
last-wins and renames every occurrence, so `["a", "a"]` against
targets `["x", "y"]` becomes `["y", "y"]`, not the claimed positional
`["x", "y"]`. -/
theorem claim_C6_cex :
    (MicroBatch.align_df_columns_with_pg ["c1", "c2", "c3", "c4"] ["id", "name", "updated_at"]
        true none true =
      ⟨["c1", "id", "name", "updated_at"], []⟩) ∧
    (MicroBatch.align_df_columns_with_pg ["a", "a"] ["x", "y"] true none true =
      ⟨["y", "y"], []⟩) := by
  exact ⟨by decide, by decide⟩

/-- Mapping sanitize-after-positional-rename over a split list: the
prefix (disjoint from the rename keys) passes through unrenamed, the
suffix renames positionally to the targets. -/
theorem map_sanitize_rename_append (pre post ddl : List String)
    (hlen : post.length = ddl.length)
    (hdisj : ∀ c ∈ pre, c ∉ post) (hnd : post.Nodup) :
    (pre ++ post).map (fun c => MicroBatch.sanitize_for_athena
        (MicroBatch.renameWith (post.zip ddl) c)) =
      pre.map MicroBatch.sanitize_for_athena ++ ddl.map MicroBatch.sanitize_for_athena := by
  rw [List.map_append]
  congr 1
  · apply List.map_congr_left
    intro c hc
    rw [renameWith_of_not_key c _ (fun p hp hpc => hdisj c hc (hpc ▸ (List.of_mem_zip hp).1))]
  · rw [show post.map (fun c => MicroBatch.sanitize_for_athena
        (MicroBatch.renameWith (post.zip ddl) c)) =
      (post.map (fun c => MicroBatch.renameWith (post.zip ddl) c)).map
        MicroBatch.sanitize_for_athena from by
        rw [List.map_map]; simp only [Function.comp_def]]
    rw [map_renameWith_zip post ddl (le_of_eq hlen) hnd, hlen, List.take_length]

set_option maxHeartbeats 1000000 in
/-- Claim C6 (amended): for pairwise-distinct incoming names, a
non-empty DDL list and a non-empty effective target list (the
production list when supplied and non-empty, else the DDL list, meta
columns removed when requested), the alignment follows the four-branch
order — positional rename to the DDL names on a count match,
name-based rename when every target name occurs (case-insensitively)
among the incoming names, tail alignment of the last N incoming
columns without any warning, else head alignment of the first M
targets with a warning — each branch passing the resulting names
through `sanitize_for_athena`. -/
theorem claim_C6 (df_cols ddl_cols : List String) (relax exclude_prod_meta : Bool)
    (prod_cols : Option (List String))
    (hdd : ddl_cols ≠ [])
    (htne : MicroBatch.targetCols prod_cols ddl_cols exclude_prod_meta ≠ [])
    (hnd : df_cols.Nodup) :
    (df_cols.length = ddl_cols.length →
      MicroBatch.align_df_columns_with_pg df_cols ddl_cols relax prod_cols exclude_prod_meta =
        ⟨ddl_cols.map MicroBatch.sanitize_for_athena, []⟩) ∧
    (df_cols.length ≠ ddl_cols.length →
      (((MicroBatch.targetCols prod_cols ddl_cols exclude_prod_meta).map Py.lower).all
        (fun t => (df_cols.map Py.lower).contains t)) = true →
      MicroBatch.align_df_columns_with_pg df_cols ddl_cols relax prod_cols exclude_prod_meta =
        ⟨df_cols.map (fun c => MicroBatch.sanitize_for_athena
          (MicroBatch.renameWith (MicroBatch.strategyAMap df_cols
            (MicroBatch.targetCols prod_cols ddl_cols exclude_prod_meta)) c)), []⟩) ∧
    (df_cols.length ≠ ddl_cols.length →
      (((MicroBatch.targetCols prod_cols ddl_cols exclude_prod_meta).map Py.lower).all
        (fun t => (df_cols.map Py.lower).contains t)) = false →
      (MicroBatch.targetCols prod_cols ddl_cols exclude_prod_meta).length ≤ df_cols.length →
      MicroBatch.align_df_columns_with_pg df_cols ddl_cols relax prod_cols exclude_prod_meta =
        ⟨(df_cols.take (df_cols.length -
            (MicroBatch.targetCols prod_cols ddl_cols exclude_prod_meta).length)).map
              MicroBatch.sanitize_for_athena ++
          (MicroBatch.targetCols prod_cols ddl_cols exclude_prod_meta).map
            MicroBatch.sanitize_for_athena, []⟩) ∧
    (df_cols.length ≠ ddl_cols.length →
      (((MicroBatch.targetCols prod_cols ddl_cols exclude_prod_meta).map Py.lower).all
        (fun t => (df_cols.map Py.lower).contains t)) = false →
      df_cols.length < (MicroBatch.targetCols prod_cols ddl_cols exclude_prod_meta).length →
      MicroBatch.align_df_columns_with_pg df_cols ddl_cols relax prod_cols exclude_prod_meta =
        ⟨((MicroBatch.targetCols prod_cols ddl_cols exclude_prod_meta).take df_cols.length).map
            MicroBatch.sanitize_for_athena,
          ["[WARN] DataFrame has fewer columns than target (df=" ++ toString df_cols.length ++
            ", target=" ++
            toString (MicroBatch.targetCols prod_cols ddl_cols exclude_prod_meta).length ++
            "). Aligning first " ++ toString df_cols.length ++ " by position."]⟩) := by
  have hne : ddl_cols.isEmpty = false := by
    cases ddl_cols with
    | nil => exact absurd rfl hdd
    | cons x xs => rfl
  refine ⟨?_, ?_, ?_, ?_⟩
  · intro hlen
    simp only [MicroBatch.align_df_columns_with_pg, hne, Bool.false_and, Bool.not_false,
      Bool.true_and, hlen, decide_True, Bool.and_true, Bool.false_eq_true, if_false, if_true]
    rw [show df_cols.map (fun c => MicroBatch.sanitize_for_athena
        (MicroBatch.renameWith (df_cols.zip ddl_cols) c)) =
      (df_cols.map (fun c => MicroBatch.renameWith (df_cols.zip ddl_cols) c)).map
        MicroBatch.sanitize_for_athena from by
        rw [List.map_map]; simp only [Function.comp_def]]
    rw [map_renameWith_zip df_cols ddl_cols (le_of_eq hlen) hnd, hlen, List.take_length]
  · intro hlen hall
    simp only [MicroBatch.align_df_columns_with_pg, hne, Bool.false_and, Bool.not_false,
      Bool.true_and, Bool.false_eq_true, if_false]
    rw [if_neg (by simp [hlen]), if_neg (by simpa [List.isEmpty_iff] using htne),
      if_pos hall]
  · intro hlen hall hge
    simp only [MicroBatch.align_df_columns_with_pg, hne, Bool.false_and, Bool.not_false,
      Bool.true_and, Bool.false_eq_true, if_false]
    rw [if_neg (by simp [hlen]), if_neg (by simpa [List.isEmpty_iff] using htne),
      if_neg (by rw [hall]; exact Bool.false_ne_true), if_pos (by simpa using hge)]
    have hdisj : ∀ c ∈ df_cols.take (df_cols.length -
        (MicroBatch.targetCols prod_cols ddl_cols exclude_prod_meta).length),
        c ∉ df_cols.drop (df_cols.length -
          (MicroBatch.targetCols prod_cols ddl_cols exclude_prod_meta).length) := by
      have hnd2 : (df_cols.take (df_cols.length -
          (MicroBatch.targetCols prod_cols ddl_cols exclude_prod_meta).length) ++
          df_cols.drop (df_cols.length -
            (MicroBatch.targetCols prod_cols ddl_cols exclude_prod_meta).length)).Nodup := by
        rw [List.take_append_drop]
        exact hnd
      intro c hc hcd
      exact (List.disjoint_of_nodup_append hnd2) hc hcd
    have hdroplen : (df_cols.drop (df_cols.length -
        (MicroBatch.targetCols prod_cols ddl_cols exclude_prod_meta).length)).length =
        (MicroBatch.targetCols prod_cols ddl_cols exclude_prod_meta).length := by
      rw [List.length_drop]
      omega
    have hdropnd : (df_cols.drop (df_cols.length -
        (MicroBatch.targetCols prod_cols ddl_cols exclude_prod_meta).length)).Nodup :=
      List.Nodup.sublist (List.drop_sublist _ _) hnd
    have hmain := map_sanitize_rename_append
      (df_cols.take (df_cols.length -
        (MicroBatch.targetCols prod_cols ddl_cols exclude_prod_meta).length))
      (df_cols.drop (df_cols.length -
        (MicroBatch.targetCols prod_cols ddl_cols exclude_prod_meta).length))
      (MicroBatch.targetCols prod_cols ddl_cols exclude_prod_meta) hdroplen hdisj hdropnd
    rw [List.take_append_drop] at hmain
    rw [hmain, if_neg (by rw [hdroplen]; simp)]
  · intro hlen hall hlt
    simp only [MicroBatch.align_df_columns_with_pg, hne, Bool.false_and, Bool.not_false,
      Bool.true_and, Bool.false_eq_true, if_false]
    rw [if_neg (by simp [hlen]), if_neg (by simpa [List.isEmpty_iff] using htne),
      if_neg (by rw [hall]; exact Bool.false_ne_true),
      if_neg (by simpa using Nat.not_le.mpr hlt)]
    rw [show df_cols.map (fun c => MicroBatch.sanitize_for_athena
        (MicroBatch.renameWith
          (df_cols.zip (MicroBatch.targetCols prod_cols ddl_cols exclude_prod_meta)) c)) =
      (df_cols.map (fun c => MicroBatch.renameWith
        (df_cols.zip (MicroBatch.targetCols prod_cols ddl_cols exclude_prod_meta)) c)).map
        MicroBatch.sanitize_for_athena from by
        rw [List.map_map]; simp only [Function.comp_def]]
    rw [map_renameWith_zip df_cols (MicroBatch.targetCols prod_cols ddl_cols exclude_prod_meta)
      (le_of_lt hlt) hnd]

set_option maxRecDepth 8000 in
/-- Concrete instantiation of the amended C6, one input per branch
(the tail branch through a supplied production list with a meta
column). -/
theorem claim_C6_witness :
    (MicroBatch.align_df_columns_with_pg ["a", "b", "c"] ["id", "name", "updated_at"]
        true none true =
      ⟨["id", "name", "updated_at"].map MicroBatch.sanitize_for_athena, []⟩) ∧
    (MicroBatch.align_df_columns_with_pg ["extra", "ID", "name", "updated_at"]
        ["id", "name", "updated_at"] true none true =
      ⟨["extra", "ID", "name", "updated_at"].map (fun c => MicroBatch.sanitize_for_athena
        (MicroBatch.renameWith
          (MicroBatch.strategyAMap ["extra", "ID", "name", "updated_at"]
            ["id", "name", "updated_at"]) c)), []⟩) ∧
    (MicroBatch.align_df_columns_with_pg ["c1", "c2", "c3", "c4"] ["zz"]
        true (some ["id", "name", "updated_at", "__ts_ms"]) true =
      ⟨(["c1", "c2", "c3", "c4"].take 1).map MicroBatch.sanitize_for_athena ++
        ["id", "name", "updated_at"].map MicroBatch.sanitize_for_athena, []⟩) ∧
    (MicroBatch.align_df_columns_with_pg ["c1", "c2"] ["id", "name", "updated_at"]
        true none true =
      ⟨(["id", "name", "updated_at"].take 2).map MicroBatch.sanitize_for_athena,
        ["[WARN] DataFrame has fewer columns than target (df=" ++ toString 2 ++
          ", target=" ++ toString 3 ++ "). Aligning first " ++ toString 2 ++
          " by position."]⟩) := by
  refine ⟨?_, ?_, ?_, ?_⟩
  · exact (claim_C6 ["a", "b", "c"] ["id", "name", "updated_at"] true true none (by decide)
      (by decide) (by decide)).1 (by decide)
  · exact (claim_C6 ["extra", "ID", "name", "updated_at"] ["id", "name", "updated_at"] true
      true none (by decide) (by decide) (by decide)).2.1 (by decide) (by decide)
  · exact (claim_C6 ["c1", "c2", "c3", "c4"] ["zz"] true true
      (some ["id", "name", "updated_at", "__ts_ms"]) (by decide) (by decide)
      (by decide)).2.2.1 (by decide) (by decide) (by decide)
  · exact (claim_C6 ["c1", "c2"] ["id", "name", "updated_at"] true true none (by decide)
      (by decide) (by decide)).2.2.2 (by decide) (by decide) (by decide)

set_option maxRecDepth 8000 in
/-- Concrete instantiation of C7: one configuration with an updatable
column, one where only the trivial self-assignment remains. -/
theorem claim_C7_witness :
    (∃ sp, MicroBatch.set_pairs
        (MicroBatch.merged_cols ["id", "v"] (MicroBatch.dest_cols_lower [("id", "bigint"), ("v", "varchar")]))
        ["id"] [] [("id", "bigint"), ("v", "varchar")] "backfill" [] = .ok sp ∧ sp ≠ [] ∧
      sp = (if ((MicroBatch.merged_cols ["id", "v"]
            (MicroBatch.dest_cols_lower [("id", "bigint"), ("v", "varchar")])).filter
            (fun c => !(["id"] : List String).contains c && !([] : List String).contains c)).isEmpty then
          [MicroBatch.qident ((["id"] : List String).headD "") ++ " = t." ++
            MicroBatch.qident ((["id"] : List String).headD "")]
        else
          ((MicroBatch.merged_cols ["id", "v"]
            (MicroBatch.dest_cols_lower [("id", "bigint"), ("v", "varchar")])).filter
            (fun c => !(["id"] : List String).contains c && !([] : List String).contains c)).map
            (fun c => MicroBatch.qident c ++ " = " ++
              MicroBatch._cast_expr_for_col c
                (MicroBatch.typeGet [("id", "bigint"), ("v", "varchar")] (Py.lower c)) "backfill"))) ∧
    (∃ sp, Backfill.set_pairs
        (Backfill.merged_cols ["id"] (Backfill.dest_cols_lower [("id", "bigint")]))
        ["id"] [] [("id", "bigint")] "backfill" [] = .ok sp ∧ sp ≠ [] ∧
      sp = (if ((Backfill.merged_cols ["id"] (Backfill.dest_cols_lower [("id", "bigint")])).filter
            (fun c => !(["id"] : List String).contains c && !([] : List String).contains c)).isEmpty then
          [Backfill.qident ((["id"] : List String).headD "") ++ " = t." ++
            Backfill.qident ((["id"] : List String).headD "")]
        else
          ((Backfill.merged_cols ["id"] (Backfill.dest_cols_lower [("id", "bigint")])).filter
            (fun c => !(["id"] : List String).contains c && !([] : List String).contains c)).map
            (fun c => Backfill.qident c ++ " = " ++
              Backfill._cast_expr_for_col c ([("id", "bigint")].lookup (Py.lower c)) "backfill"))) :=
  claim_C7
    ⟨"db", "stg", "prod", ["id"], ["id", "v"], [("id", "bigint"), ("v", "varchar")],
      none, "backfill", [], [], [], [], true, []⟩
    ⟨none, "sdb", "stab", none, "ddb", "dtab", ["id"], ["id"], [("id", "bigint")],
      none, "backfill", [], [], [], [], none, none, none⟩
    (by decide) rfl (by decide) rfl

set_option maxRecDepth 8000 in
/-- Concrete instantiation of C2: a destination that has the recency
column gets the guard, one that lacks it gets none. -/
theorem claim_C2_witness :
    (MicroBatch.matched_guard (some "updated_at") [("id", "bigint"), ("updated_at", "timestamp(6)")] =
      "\n      AND COALESCE(\n            TRY_CAST(s." ++ MicroBatch.qident "updated_at" ++ " AS " ++
        MicroBatch._normalize_ts_type
          ((MicroBatch.typeGet [("id", "bigint"), ("updated_at", "timestamp(6)")]
            (Py.lower "updated_at")).getD "timestamp") ++
        "),\n            TIMESTAMP \x271970-01-01 00:00:00\x27\n          ) >\n          COALESCE(\n            TRY_CAST(t." ++
        MicroBatch.qident "updated_at" ++ " AS " ++
        MicroBatch._normalize_ts_type
          ((MicroBatch.typeGet [("id", "bigint"), ("updated_at", "timestamp(6)")]
            (Py.lower "updated_at")).getD "timestamp") ++
        "),\n            TIMESTAMP \x271970-01-01 00:00:00\x27\n          )\n    ") ∧
    Backfill.matched_guard (some "updated_at") [("id", "bigint")] = "" := by
  constructor
  · exact ((claim_C2
      ⟨"db", "stg", "prod", ["id"], ["id"], [("id", "bigint"), ("updated_at", "timestamp(6)")],
        some "updated_at", "backfill", [], [], [], [], true, []⟩
      ⟨none, "sdb", "stab", none, "ddb", "dtab", ["id"], ["id"], [("id", "bigint")],
        some "updated_at", "backfill", [], [], [], [], none, none, none⟩).1
      "updated_at" rfl (by decide) (by decide))
  · exact ((claim_C2
      ⟨"db", "stg", "prod", ["id"], ["id"], [("id", "bigint"), ("updated_at", "timestamp(6)")],
        some "updated_at", "backfill", [], [], [], [], true, []⟩
      ⟨none, "sdb", "stab", none, "ddb", "dtab", ["id"], ["id"], [("id", "bigint")],
        some "updated_at", "backfill", [], [], [], [], none, none, none⟩).2.2.2.2.1
      (by intro u hu; injection hu with hv; right; rw [← hv]; decide))

set_option maxRecDepth 8000 in
/-- Claim C1 counterexample: two calls whose primary-key lists are
(vacuously) subsets of the destination columns, yet which raise — the
micro-batch composer with an empty primary-key list raises `IndexError`
at the `pk_cols[0]` fallback, and the backfill composer with a
whitespace-only `filter_start_ts` raises
`ValueError("Empty timestamp literal")`.  This refutes "composition
never raises" as stated. -/
theorem claim_C1_cex :
    MicroBatch.build_merge_sql
        ⟨"db", "stg", "prod", [], [], [("id", "bigint")], none, "backfill",
          [], [], [], [], true, []⟩ = .error .indexError ∧
    Backfill.build_merge_sql
        ⟨none, "sdb", "stab", none, "ddb", "dtab", ["id"], ["id", "updated_at"],
          [("id", "bigint"), ("updated_at", "timestamp")], some "updated_at", "backfill",
          [], [], [], [], none, some "   ", none⟩ =
      .error (.valueError "Empty timestamp literal") := by
  exact ⟨by rfl, by rfl⟩

set_option maxRecDepth 8000 in
/-- Concrete instantiation of the amended C1, one input per branch. -/
theorem claim_C1_witness :
    (∃ s, MicroBatch.build_merge_sql
      ⟨"db", "stg", "prod", ["id"], ["id", "v"], [("id", "bigint"), ("v", "varchar")],
        none, "backfill", [], [], [], [], true, []⟩ = .ok s) ∧
    (∃ pk ∈ ["nope"],
      (MicroBatch.dest_cols_lower [("id", "bigint")]).contains (Py.lower pk) = false ∧
      MicroBatch.build_merge_sql
        ⟨"db", "stg", "prod", ["nope"], ["id"], [("id", "bigint")],
          none, "backfill", [], [], [], [], true, []⟩ =
        .error (.runtimeError ("Primary key \x27" ++ pk ++ "\x27 not found in destination schema."))) ∧
    (∃ s, Backfill.build_merge_sql
      ⟨none, "sdb", "stab", none, "ddb", "dtab", ["id"], ["id", "v"],
        [("id", "bigint"), ("v", "varchar")], none, "backfill", [], [], [], [],
        none, none, none⟩ = .ok s) ∧
    (∃ pk ∈ ["nope"],
      (Backfill.dest_cols_lower [("id", "bigint")]).contains (Py.lower pk) = false ∧
      Backfill.build_merge_sql
        ⟨none, "sdb", "stab", none, "ddb", "dtab", ["nope"], ["id"], [("id", "bigint")],
          none, "backfill", [], [], [], [], none, none, none⟩ =
        .error (.runtimeError ("Primary key \x27" ++ pk ++ "\x27 not found in destination schema."))) := by
  refine ⟨?_, ?_, ?_, ?_⟩
  · exact (claim_C1 ⟨"db", "stg", "prod", ["id"], ["id", "v"], [("id", "bigint"), ("v", "varchar")],
      none, "backfill", [], [], [], [], true, []⟩
      ⟨none, "sdb", "stab", none, "ddb", "dtab", ["id"], ["id", "v"],
        [("id", "bigint"), ("v", "varchar")], none, "backfill", [], [], [], [],
        none, none, none⟩).1 (by decide) (by decide)
  · exact (claim_C1 ⟨"db", "stg", "prod", ["nope"], ["id"], [("id", "bigint")],
      none, "backfill", [], [], [], [], true, []⟩
      ⟨none, "sdb", "stab", none, "ddb", "dtab", ["id"], ["id", "v"],
        [("id", "bigint"), ("v", "varchar")], none, "backfill", [], [], [], [],
        none, none, none⟩).2.1 ⟨"nope", by decide, by decide⟩
  · exact (claim_C1 ⟨"db", "stg", "prod", ["id"], ["id", "v"], [("id", "bigint"), ("v", "varchar")],
      none, "backfill", [], [], [], [], true, []⟩
      ⟨none, "sdb", "stab", none, "ddb", "dtab", ["id"], ["id", "v"],
        [("id", "bigint"), ("v", "varchar")], none, "backfill", [], [], [], [],
        none, none, none⟩).2.2.1 (by decide) (by decide) (by decide) (by decide)
  · exact (claim_C1 ⟨"db", "stg", "prod", ["id"], ["id", "v"], [("id", "bigint"), ("v", "varchar")],
      none, "backfill", [], [], [], [], true, []⟩
      ⟨none, "sdb", "stab", none, "ddb", "dtab", ["nope"], ["id"], [("id", "bigint")],
        none, "backfill", [], [], [], [], none, none, none⟩).2.2.2 ⟨"nope", by decide, by decide⟩

/-!
## C9: shape and idempotence of `sanitize_for_athena`
-/

theorem headQ_mem {l : List Char} {c : Char} (h : l.head? = some c) : c ∈ l := by
  cases l with
  | nil => cases h
  | cons a t =>
    injection h with h
    subst h
    exact List.mem_cons_self _ _

theorem getLastQ_mem {l : List Char} {c : Char} (h : l.getLast? = some c) : c ∈ l := by
  rw [← List.head?_reverse] at h
  exact List.mem_reverse.mp (headQ_mem h)

theorem dropWhile_headQ_false (p : Char → Bool) (l : List Char) :
    ∀ c, (l.dropWhile p).head? = some c → p c = false := by
  induction l with
  | nil => intro c h; cases h
  | cons a t ih =>
    intro c h
    by_cases hpa : p a = true
    · rw [List.dropWhile_cons, if_pos hpa] at h
      exact ih c h
    · rw [List.dropWhile_cons, if_neg hpa] at h
      injection h with h
      rw [← h]
      exact Bool.eq_false_iff.mpr hpa

theorem getLastQ_append (l1 l2 : List Char) (h : l2 ≠ []) :
    (l1 ++ l2).getLast? = l2.getLast? := by
  rw [← List.head?_reverse, ← List.head?_reverse, List.reverse_append]
  cases hr : l2.reverse with
  | nil =>
    rw [List.reverse_eq_nil_iff] at hr
    exact absurd hr h
  | cons x t => rfl

theorem stripIf_getLastQ_false (p : Char → Bool) (l : List Char) :
    ∀ c, (Py.stripIf p l).getLast? = some c → p c = false := by
  intro c h
  unfold Py.stripIf at h
  rw [List.getLast?_reverse] at h
  exact dropWhile_headQ_false p _ c h

theorem stripIf_headQ_false (p : Char → Bool) (l : List Char) :
    ∀ c, (Py.stripIf p l).head? = some c → p c = false := by
  intro c h
  unfold Py.stripIf at h
  rw [List.head?_reverse] at h
  obtain ⟨t, ht⟩ := List.dropWhile_suffix (l := (l.dropWhile p).reverse) p
  cases hd2 : (l.dropWhile p).reverse.dropWhile p with
  | nil => rw [hd2] at h; cases h
  | cons x t2 =>
    rw [hd2] at h ht
    have h2 : ((x :: t2) : List Char).getLast? = (l.dropWhile p).head? := by
      rw [← getLastQ_append t _ (by simp), ht, List.getLast?_reverse]
    rw [h2] at h
    exact dropWhile_headQ_false p _ c h

theorem mem_of_stripIf (p : Char → Bool) (l : List Char) (c : Char)
    (h : c ∈ Py.stripIf p l) : c ∈ l := by
  unfold Py.stripIf at h
  rw [List.mem_reverse] at h
  have h1 := (List.dropWhile_suffix p).sublist.subset h
  rw [List.mem_reverse] at h1
  exact (List.dropWhile_suffix p).sublist.subset h1

theorem mem_of_collapse (c : Char) : ∀ l, c ∈ MicroBatch.collapseUnderscores l → c ∈ l := by
  intro l
  induction l with
  | nil => intro h; exact h
  | cons a t ih =>
    cases t with
    | nil => intro h; exact h
    | cons b r =>
      intro h
      simp only [MicroBatch.collapseUnderscores] at h
      by_cases hab : a = '_' ∧ b = '_'
      · rw [if_pos hab] at h
        exact List.mem_cons_of_mem a (ih h)
      · rw [if_neg hab] at h
        rcases List.mem_cons.mp h with h1 | h1
        · subst h1; exact List.mem_cons_self _ _
        · exact List.mem_cons_of_mem a (ih h1)

theorem collapse_headQ : ∀ l : List Char,
    (MicroBatch.collapseUnderscores l).head? = l.head? := by
  intro l
  induction l with
  | nil => rfl
  | cons a t ih =>
    cases t with
    | nil => rfl
    | cons b r =>
      simp only [MicroBatch.collapseUnderscores]
      by_cases hab : a = '_' ∧ b = '_'
      · rw [if_pos hab, ih, List.head?_cons, List.head?_cons, hab.1, hab.2]
      · rw [if_neg hab]
        rfl

theorem chain_collapse : ∀ l : List Char,
    (MicroBatch.collapseUnderscores l).Chain' (fun a b => ¬(a = '_' ∧ b = '_')) := by
  intro l
  induction l with
  | nil => simp [MicroBatch.collapseUnderscores]
  | cons a t ih =>
    cases t with
    | nil => simp [MicroBatch.collapseUnderscores]
    | cons b r =>
      simp only [MicroBatch.collapseUnderscores]
      by_cases hab : a = '_' ∧ b = '_'
      · rw [if_pos hab]; exact ih
      · rw [if_neg hab]
        rw [List.chain'_cons']
        refine ⟨?_, ih⟩
        intro x hx
        have hh := collapse_headQ (b :: r)
        rw [List.head?_cons] at hh
        rw [hh] at hx
        have hxb : b = x := by simp at hx; exact hx
        subst hxb
        exact hab

theorem collapse_eq_self : ∀ l : List Char,
    l.Chain' (fun a b => ¬(a = '_' ∧ b = '_')) → MicroBatch.collapseUnderscores l = l := by
  intro l
  induction l with
  | nil => intro _; rfl
  | cons a t ih =>
    cases t with
    | nil => intro _; rfl
    | cons b r =>
      intro h
      rw [List.chain'_cons] at h
      simp only [MicroBatch.collapseUnderscores]
      rw [if_neg h.1, ih h.2]

theorem collapse_all_us : ∀ l : List Char, l ≠ [] → (∀ c ∈ l, c = '_') →
    MicroBatch.collapseUnderscores l = ['_'] := by
  intro l
  induction l with
  | nil => intro h; exact absurd rfl h
  | cons a t ih =>
    intro _ hall
    cases t with
    | nil =>
      have := hall a (List.mem_cons_self _ _)
      simp [MicroBatch.collapseUnderscores, this]
    | cons b r =>
      have ha := hall a (List.mem_cons_self _ _)
      have hb := hall b (List.mem_cons_of_mem _ (List.mem_cons_self _ _))
      simp only [MicroBatch.collapseUnderscores]
      rw [if_pos ⟨ha, hb⟩]
      exact ih (by simp) (fun c hc => hall c (List.mem_cons_of_mem _ hc))

theorem stripIf_chain (p : Char → Bool) (l : List Char)
    (h : l.Chain' (fun a b => ¬(a = '_' ∧ b = '_'))) :
    (Py.stripIf p l).Chain' (fun a b => ¬(a = '_' ∧ b = '_')) := by
  unfold Py.stripIf
  have h1 := h.suffix (List.dropWhile_suffix p)
  have h2 : ((l.dropWhile p).reverse).Chain' (fun a b => ¬(a = '_' ∧ b = '_')) := by
    rw [List.chain'_reverse]
    exact h1.imp (fun a b hab hc => hab ⟨hc.2, hc.1⟩)
  have h3 := h2.suffix (List.dropWhile_suffix p)
  rw [List.chain'_reverse]
  exact h3.imp (fun a b hab hc => hab ⟨hc.2, hc.1⟩)

theorem dropWhile_eq_self_of_head (p : Char → Bool) (l : List Char)
    (h : ∀ c, l.head? = some c → p c = false) : l.dropWhile p = l := by
  cases l with
  | nil => rfl
  | cons a t =>
    rw [List.dropWhile_cons, if_neg (by simp [h a rfl])]

theorem stripIf_eq_self (p : Char → Bool) (l : List Char)
    (hh : ∀ c, l.head? = some c → p c = false)
    (hl : ∀ c, l.getLast? = some c → p c = false) :
    Py.stripIf p l = l := by
  unfold Py.stripIf
  rw [dropWhile_eq_self_of_head p l hh]
  rw [dropWhile_eq_self_of_head p l.reverse
    (fun c hc => hl c (by rwa [List.head?_reverse] at hc))]
  exact List.reverse_reverse l

theorem stripIf_cons_strip (p : Char → Bool) (a : Char) (l : List Char) (hpa : p a = true) :
    Py.stripIf p (a :: l) = Py.stripIf p l := by
  unfold Py.stripIf
  rw [List.dropWhile_cons, if_pos hpa]

theorem allowed_lowerChar (c : Char) (h : MicroBatch.allowedChar c = true) :
    Py.lowerChar c = c := by
  unfold Py.lowerChar
  rw [if_neg]
  simp only [MicroBatch.allowedChar, Bool.or_eq_true, Bool.and_eq_true,
    decide_eq_true_eq] at h
  omega

theorem allowed_not_space (c : Char) (h : MicroBatch.allowedChar c = true) :
    Py.isSpace c = false := by
  simp only [MicroBatch.allowedChar, Bool.or_eq_true, Bool.and_eq_true,
    decide_eq_true_eq] at h
  simp only [Py.isSpace, Bool.or_eq_false_iff, decide_eq_false_iff_not]
  omega

theorem pipeline_props (l1 : List Char) (hall : ∀ c ∈ l1, MicroBatch.allowedChar c = true) :
    (∀ c ∈ Py.stripIf (· = '_') (MicroBatch.collapseUnderscores l1),
      MicroBatch.allowedChar c = true) ∧
    (Py.stripIf (· = '_') (MicroBatch.collapseUnderscores l1)).Chain'
      (fun a b => ¬(a = '_' ∧ b = '_')) ∧
    (∀ c, (Py.stripIf (· = '_') (MicroBatch.collapseUnderscores l1)).head? = some c →
      ¬(c = '_')) ∧
    (∀ c, (Py.stripIf (· = '_') (MicroBatch.collapseUnderscores l1)).getLast? = some c →
      ¬(c = '_')) := by
  refine ⟨?_, stripIf_chain _ _ (chain_collapse l1), ?_, ?_⟩
  · intro c hc
    exact hall c (mem_of_collapse c l1 (mem_of_stripIf _ _ c hc))
  · intro c hc
    exact of_decide_eq_false (stripIf_headQ_false _ _ c hc)
  · intro c hc
    exact of_decide_eq_false (stripIf_getLastQ_false _ _ c hc)

theorem sanitize_result_props (l3 : List Char)
    (hmem : ∀ c ∈ l3, MicroBatch.allowedChar c = true)
    (hch : l3.Chain' (fun a b => ¬(a = '_' ∧ b = '_')))
    (hhd : ∀ c, l3.head? = some c → ¬(c = '_'))
    (hlt : ∀ c, l3.getLast? = some c → ¬(c = '_')) :
    ∀ s : String, s = (if l3.isEmpty then "col" else ⟨l3⟩) →
    (s.data ≠ [] ∧ (∀ c ∈ s.data, MicroBatch.allowedChar c = true) ∧
      s.data.Chain' (fun a b => ¬(a = '_' ∧ b = '_')) ∧
      (∀ c, s.data.head? = some c → ¬(c = '_')) ∧
      (∀ c, s.data.getLast? = some c → ¬(c = '_'))) := by
  intro s hs
  by_cases hE : l3.isEmpty
  · rw [if_pos hE] at hs
    subst hs
    refine ⟨by decide, by decide, ?_, ?_, ?_⟩
    · show List.Chain' _ (['c', 'o', 'l'])
      rw [List.chain'_cons, List.chain'_cons]
      exact ⟨by decide, by decide, List.chain'_singleton _⟩
    · intro c hc
      injection hc with hc
      subst hc
      decide
    · intro c hc
      injection hc with hc
      subst hc
      decide
  · rw [if_neg hE] at hs
    subst hs
    refine ⟨?_, hmem, hch, hhd, hlt⟩
    simpa [List.isEmpty_iff] using hE

theorem sanitize_for_athena_props (name : String) :
    (MicroBatch.sanitize_for_athena name).data ≠ [] ∧
    (∀ c ∈ (MicroBatch.sanitize_for_athena name).data, MicroBatch.allowedChar c = true) ∧
    (MicroBatch.sanitize_for_athena name).data.Chain' (fun a b => ¬(a = '_' ∧ b = '_')) ∧
    (∀ c, (MicroBatch.sanitize_for_athena name).data.head? = some c → ¬(c = '_')) ∧
    (∀ c, (MicroBatch.sanitize_for_athena name).data.getLast? = some c → ¬(c = '_')) := by
  simp only [MicroBatch.sanitize_for_athena]
  cases hL : (Py.lower (Py.strip name)).data.map
      (fun c => if MicroBatch.allowedChar c then c else '_') with
  | nil =>
    obtain ⟨h1, h2, h3, h4⟩ := pipeline_props [] (by simp)
    exact sanitize_result_props _ h1 h2 h3 h4 _ rfl
  | cons c t =>
    have hall : ∀ x ∈ c :: t, MicroBatch.allowedChar x = true := by
      rw [← hL]
      intro x hx
      obtain ⟨d, _, rfl⟩ := List.mem_map.mp hx
      by_cases hd : MicroBatch.allowedChar d = true
      · rwa [if_pos hd]
      · rw [if_neg hd]; decide
    dsimp only
    by_cases hdg : MicroBatch.isDigitChar c = true
    · rw [if_pos hdg]
      have hall2 : ∀ x ∈ '_' :: c :: t, MicroBatch.allowedChar x = true := by
        intro x hx
        rcases List.mem_cons.mp hx with h | h
        · subst h; decide
        · exact hall x h
      obtain ⟨h1, h2, h3, h4⟩ := pipeline_props _ hall2
      exact sanitize_result_props _ h1 h2 h3 h4 _ rfl
    · rw [if_neg hdg]
      obtain ⟨h1, h2, h3, h4⟩ := pipeline_props _ hall
      exact sanitize_result_props _ h1 h2 h3 h4 _ rfl

theorem sanitize_fixed (s : String)
    (h1 : s.data ≠ [])
    (h2 : ∀ c ∈ s.data, MicroBatch.allowedChar c = true)
    (h3 : s.data.Chain' (fun a b => ¬(a = '_' ∧ b = '_')))
    (h4 : ∀ c, s.data.head? = some c → ¬(c = '_'))
    (h5 : ∀ c, s.data.getLast? = some c → ¬(c = '_')) :
    MicroBatch.sanitize_for_athena s = s := by
  have hstrip : Py.strip s = s := by
    apply strData_ext
    show Py.stripIf Py.isSpace s.data = s.data
    apply stripIf_eq_self
    · intro c hc
      exact allowed_not_space c (h2 c (headQ_mem hc))
    · intro c hc
      exact allowed_not_space c (h2 c (getLastQ_mem hc))
  have hlower : Py.lower s = s := by
    apply strData_ext
    show s.data.map Py.lowerChar = s.data
    have hmc : s.data.map Py.lowerChar = s.data.map id :=
      List.map_congr_left (fun c hc => allowed_lowerChar c (h2 c hc))
    rw [hmc, List.map_id]
  simp only [MicroBatch.sanitize_for_athena, hstrip, hlower]
  have hmap : s.data.map (fun c => if MicroBatch.allowedChar c then c else '_') =
      s.data.map id :=
    List.map_congr_left (fun c hc => by rw [if_pos (h2 c hc)]; rfl)
  rw [hmap, List.map_id]
  cases hd : s.data with
  | nil => exact absurd hd h1
  | cons c t =>
    have hcne : ¬(c = '_') := h4 c (by rw [hd]; rfl)
    have hch2 : (c :: t).Chain' (fun a b => ¬(a = '_' ∧ b = '_')) := hd ▸ h3
    have hcoll : MicroBatch.collapseUnderscores (c :: t) = c :: t := collapse_eq_self _ hch2
    have hstripId : Py.stripIf (· = '_') (c :: t) = c :: t := by
      apply stripIf_eq_self
      · intro x hx
        injection hx with hx
        subst hx
        exact decide_eq_false hcne
      · intro x hx
        exact decide_eq_false (h5 x (by rw [hd]; exact hx))
    dsimp only
    by_cases hdg : MicroBatch.isDigitChar c = true
    · rw [if_pos hdg]
      have hcoll2 : MicroBatch.collapseUnderscores ('_' :: c :: t) = '_' :: c :: t := by
        simp only [MicroBatch.collapseUnderscores]
        rw [if_neg (fun hcc => hcne hcc.2), hcoll]
      rw [hcoll2, stripIf_cons_strip _ _ _ (by decide), hstripId, if_neg (by simp)]
      exact strData_ext (by rw [hd])
    · rw [if_neg hdg]
      rw [hcoll, hstripId, if_neg (by simp)]
      exact strData_ext (by rw [hd])

/-- Claim C9: `sanitize_for_athena` always returns a non-empty string
over the alphabet `[a-z0-9_]`, with no two consecutive underscores and
no leading or trailing underscore; when no input character survives
the alphabet filter it returns `"col"`; and the function is
idempotent. -/
theorem claim_C9 (name : String) :
    MicroBatch.sanitize_for_athena name ≠ "" ∧
    (∀ c ∈ (MicroBatch.sanitize_for_athena name).data, MicroBatch.allowedChar c = true) ∧
    (MicroBatch.sanitize_for_athena name).data.Chain' (fun a b => ¬(a = '_' ∧ b = '_')) ∧
    (∀ c, (MicroBatch.sanitize_for_athena name).data.head? = some c → c ≠ '_') ∧
    (∀ c, (MicroBatch.sanitize_for_athena name).data.getLast? = some c → c ≠ '_') ∧
    ((Py.lower (Py.strip name)).data.all (fun c => !MicroBatch.allowedChar c) = true →
      MicroBatch.sanitize_for_athena name = "col") ∧
    MicroBatch.sanitize_for_athena (MicroBatch.sanitize_for_athena name) =
      MicroBatch.sanitize_for_athena name := by
  obtain ⟨h1, h2, h3, h4, h5⟩ := sanitize_for_athena_props name
  refine ⟨?_, h2, h3, h4, h5, ?_, sanitize_fixed _ h1 h2 h3 h4 h5⟩
  · intro h
    exact h1 (by rw [h])
  · intro hallneg
    simp only [MicroBatch.sanitize_for_athena]
    have hus : ∀ x ∈ (Py.lower (Py.strip name)).data.map
        (fun c => if MicroBatch.allowedChar c then c else '_'), x = '_' := by
      intro x hx
      obtain ⟨d, hd, rfl⟩ := List.mem_map.mp hx
      have hda := List.all_eq_true.mp hallneg d hd
      rw [if_neg (by simpa using hda)]
    cases hL : (Py.lower (Py.strip name)).data.map
        (fun c => if MicroBatch.allowedChar c then c else '_') with
    | nil => rfl
    | cons c t =>
      have hc : c = '_' := hus c (by rw [hL]; exact List.mem_cons_self _ _)
      dsimp only
      have hif : (if MicroBatch.isDigitChar c = true then '_' :: c :: t else c :: t) =
          c :: t := by
        rw [if_neg (by rw [hc]; decide)]
      have hcoll : MicroBatch.collapseUnderscores (c :: t) = ['_'] := by
        apply collapse_all_us _ (by simp)
        intro x hx
        exact hus x (by rw [hL]; exact hx)
      rw [hif, hcoll]
      rfl

/-- Concrete instantiation of C9 discharging its conditional parts. -/
theorem claim_C9_witness :
    MicroBatch.sanitize_for_athena " 9 Name__x " ≠ "" ∧
    MicroBatch.sanitize_for_athena "!!" = "col" :=
  ⟨(claim_C9 " 9 Name__x ").1, (claim_C9 "!!").2.2.2.2.2.1 (by decide)⟩

/-!
## C10: the hour-grid helper
-/

theorem filter_lookup_nodup (slot : String) :
    ∀ rows : List (String × Int), (rows.map Prod.fst).Nodup →
      rows.filter (fun r => r.1 = slot) =
        ((List.lookup slot rows).map (fun v => (slot, v))).toList := by
  intro rows
  induction rows with
  | nil => intro _; rfl
  | cons kv rest ih =>
    obtain ⟨k, v⟩ := kv
    intro hnd
    simp only [List.map_cons] at hnd
    obtain ⟨hk, hnd2⟩ := List.nodup_cons.mp hnd
    by_cases hks : k = slot
    · subst hks
      rw [List.filter_cons_of_pos (by simp)]
      have hl : List.lookup k ((k, v) :: rest) = some v := by
        simp [List.lookup]
      rw [hl]
      have hrest : rest.filter (fun r => r.1 = k) = [] := by
        rw [List.filter_eq_nil_iff]
        intro r hr
        simp only [decide_eq_true_eq]
        intro hrk
        exact hk (hrk ▸ (List.mem_map.mpr ⟨r, hr, rfl⟩))
      rw [hrest]
      rfl
    · rw [List.filter_cons_of_neg (by simp [hks])]
      have hl : List.lookup slot ((k, v) :: rest) = List.lookup slot rest := by
        simp [List.lookup, beq_eq_false_iff_ne.mpr (fun h => hks h.symm)]
      rw [hl]
      exact ih hnd2

set_option maxRecDepth 8000 in
/-- Claim C10 counterexample: an input frame with two rows carrying the
same hour label makes the left join emit BOTH rows for that single
slot, so the output has two rows for a one-slot grid — refuting
"exactly one row per hour slot". -/
theorem claim_C10_cex :
    Dql.ensure_hour_grid_range
        ⟨["created_hours", "total_row_source"],
          [("1970-01-01 00:00:00", 5), ("1970-01-01 00:00:00", 7)]⟩
        "total_row_source" 0 1 "created_hours" =
      .ok [("1970-01-01 00:00:00", 5), ("1970-01-01 00:00:00", 7)] ∧
    (Dql.hourSlots 0 1).length = 1 := by
  exact ⟨rfl, rfl⟩

/-- Mapping the left join over the slot list under pairwise-distinct
frame labels: each slot yields exactly one row, carrying the frame's
value for that label when present and 0 otherwise. -/
theorem leftJoinFill_nodup (rows : List (String × Int))
    (hnd : (rows.map Prod.fst).Nodup) :
    ∀ slots : List String, Dql.leftJoinFill rows slots =
      slots.map (fun s => (s, ((List.lookup s rows).getD 0 : Int))) := by
  intro slots
  induction slots with
  | nil => rfl
  | cons t ts ih =>
    simp only [Dql.leftJoinFill, List.map_cons, List.flatten_cons] at ih ⊢
    rw [ih, filter_lookup_nodup t rows hnd]
    cases List.lookup t rows with
    | none => rfl
    | some v => rfl

theorem lookup_eq_some_of_mem_nodup (rows : List (String × Int)) (r : String × Int)
    (hnd : (rows.map Prod.fst).Nodup) (hmem : r ∈ rows) :
    List.lookup r.1 rows = some r.2 := by
  cases hlk : List.lookup r.1 rows with
  | none =>
    have hf : rows.filter (fun x => x.1 = r.1) = [] := by
      rw [filter_lookup_nodup r.1 rows hnd, hlk]
      rfl
    have hrf : r ∈ rows.filter (fun x => x.1 = r.1) :=
      List.mem_filter.mpr ⟨hmem, by simp⟩
    rw [hf] at hrf
    cases hrf
  | some v =>
    have hf : rows.filter (fun x => x.1 = r.1) = [(r.1, v)] := by
      rw [filter_lookup_nodup r.1 rows hnd, hlk]
      rfl
    have hrf : r ∈ rows.filter (fun x => x.1 = r.1) :=
      List.mem_filter.mpr ⟨hmem, by simp⟩
    rw [hf] at hrf
    have hr : r = (r.1, v) := by simpa using hrf
    have hv : r.2 = v := by rw [hr]
    rw [hv]

/-- Claim C10 (amended): when the input frame's hour labels are
pairwise distinct, the helper returns the all-zero grid for an empty
frame, raises on a non-empty frame missing the hour or value column,
and otherwise returns exactly one row per hour slot of `[start, end)`
in chronological order, carrying the frame's value for that label when
present and `0` otherwise, provided every frame value fits a 64-bit
signed integer; once a joined value falls outside the int64 range, the
`astype("int64")` cast raises instead. -/
theorem claim_C10 (df : Dql.HourDF) (value_col : String) (start_dt end_dt : Nat)
    (hours_col : String) (hnd : (df.rows.map Prod.fst).Nodup) :
    (df.rows = [] →
      Dql.ensure_hour_grid_range df value_col start_dt end_dt hours_col =
        .ok ((Dql.hourSlots start_dt end_dt).map (fun s => (s, 0)))) ∧
    (df.rows ≠ [] →
      (df.columns.contains hours_col && df.columns.contains value_col) = false →
      Dql.ensure_hour_grid_range df value_col start_dt end_dt hours_col =
        .error "ensure_hour_grid_range: missing columns") ∧
    (df.rows ≠ [] →
      (df.columns.contains hours_col && df.columns.contains value_col) = true →
      (∀ r ∈ df.rows, -(2 ^ 63) ≤ r.2 ∧ r.2 < 2 ^ 63) →
      Dql.ensure_hour_grid_range df value_col start_dt end_dt hours_col =
        .ok ((Dql.hourSlots start_dt end_dt).map
          (fun s => (s, ((List.lookup s df.rows).getD 0 : Int))))) ∧
    (df.rows ≠ [] →
      (df.columns.contains hours_col && df.columns.contains value_col) = true →
      (∃ r ∈ df.rows, r.1 ∈ Dql.hourSlots start_dt end_dt ∧
        (r.2 < -(2 ^ 63) ∨ 2 ^ 63 ≤ r.2)) →
      Dql.ensure_hour_grid_range df value_col start_dt end_dt hours_col =
        .error "OverflowError: value out of int64 range") := by
  refine ⟨?_, ?_, ?_, ?_⟩
  · intro h
    simp only [Dql.ensure_hour_grid_range]
    rw [if_pos (by rw [h]; rfl)]
  · intro h hc
    simp only [Dql.ensure_hour_grid_range]
    rw [if_neg (by simpa [List.isEmpty_iff] using h), if_pos (by rw [hc]; rfl)]
  · intro h hc hrange
    simp only [Dql.ensure_hour_grid_range]
    rw [if_neg (by simpa [List.isEmpty_iff] using h), if_neg (by rw [hc]; decide),
      leftJoinFill_nodup df.rows hnd]
    rw [if_pos ?hall]
    case hall =>
      rw [List.all_eq_true]
      intro x hx
      obtain ⟨t, ht, rfl⟩ := List.mem_map.mp hx
      cases hlk : List.lookup t df.rows with
      | none => exact (by decide : Dql.int64Ok ((0 : Int)) = true)
      | some v =>
        have hf : df.rows.filter (fun r => r.1 = t) = [(t, v)] := by
          rw [filter_lookup_nodup t df.rows hnd, hlk]
          rfl
        have hvm : (t, v) ∈ df.rows := by
          apply List.mem_of_mem_filter (p := fun r => r.1 = t)
          rw [hf]
          exact List.mem_cons_self _ _
        have hb := hrange (t, v) hvm
        simp only [Dql.int64Ok, Option.getD_some, Bool.and_eq_true, decide_eq_true_eq]
        exact ⟨hb.1, hb.2⟩
  · intro h hc hex
    obtain ⟨r, hrmem, hrslot, hbad⟩ := hex
    simp only [Dql.ensure_hour_grid_range]
    rw [if_neg (by simpa [List.isEmpty_iff] using h), if_neg (by rw [hc]; decide),
      leftJoinFill_nodup df.rows hnd]
    rw [if_neg ?hnall]
    case hnall =>
      intro hall
      have hlk := lookup_eq_some_of_mem_nodup df.rows r hnd hrmem
      have hmem2 : ((r.1, ((List.lookup r.1 df.rows).getD 0 : Int)) : String × Int) ∈
          (Dql.hourSlots start_dt end_dt).map
            (fun s => (s, ((List.lookup s df.rows).getD 0 : Int))) :=
        List.mem_map.mpr ⟨r.1, hrslot, rfl⟩
      have hok := List.all_eq_true.mp hall _ hmem2
      rw [hlk] at hok
      simp only [Dql.int64Ok, Option.getD_some, Bool.and_eq_true, decide_eq_true_eq] at hok
      rcases hbad with hb | hb
      · exact absurd hok.1 (not_le.mpr hb)
      · exact absurd hok.2 (not_lt.mpr hb)

set_option maxRecDepth 8000 in
/-- Concrete instantiation of the amended C10, one input per branch,
including an int64 overflow raise. -/
theorem claim_C10_witness :
    (Dql.ensure_hour_grid_range ⟨["created_hours", "total_row_source"], []⟩
        "total_row_source" 0 2 "created_hours" =
      .ok ((Dql.hourSlots 0 2).map (fun s => (s, 0)))) ∧
    (Dql.ensure_hour_grid_range ⟨["other"], [("1970-01-01 00:00:00", 3)]⟩
        "total_row_source" 0 1 "created_hours" =
      .error "ensure_hour_grid_range: missing columns") ∧
    (Dql.ensure_hour_grid_range
        ⟨["created_hours", "total_row_source"], [("1970-01-01 01:00:00", 9)]⟩
        "total_row_source" 0 2 "created_hours" =
      .ok ((Dql.hourSlots 0 2).map
        (fun s => (s, ((List.lookup s [("1970-01-01 01:00:00", (9 : Int))]).getD 0 : Int))))) ∧
    (Dql.ensure_hour_grid_range
        ⟨["created_hours", "total_row_source"], [("1970-01-01 00:00:00", 2 ^ 63)]⟩
        "total_row_source" 0 1 "created_hours" =
      .error "OverflowError: value out of int64 range") := by
  refine ⟨?_, ?_, ?_, ?_⟩
  · exact (claim_C10 ⟨["created_hours", "total_row_source"], []⟩ "total_row_source" 0 2
      "created_hours" (by decide)).1 rfl
  · exact (claim_C10 ⟨["other"], [("1970-01-01 00:00:00", 3)]⟩ "total_row_source" 0 1
      "created_hours" (by decide)).2.1 (by decide) (by decide)
  · exact (claim_C10 ⟨["created_hours", "total_row_source"], [("1970-01-01 01:00:00", 9)]⟩
      "total_row_source" 0 2 "created_hours" (by decide)).2.2.1 (by decide) (by decide)
      (by decide)
  · exact (claim_C10 ⟨["created_hours", "total_row_source"], [("1970-01-01 00:00:00", 2 ^ 63)]⟩
      "total_row_source" 0 1 "created_hours" (by decide)).2.2.2 (by decide) (by decide)
      ⟨("1970-01-01 00:00:00", 2 ^ 63), by decide, by decide, Or.inr (by decide)⟩
